import Mathlib

/-!
# Verification of the autospec recipe-synthesis engine and convergence driver

This development gives a shallow embedding of the parts of the `autospec`
repository that the specification's claims are about:

* the directive emitters of `src/autospec/specfiles.py` (`Specfile.write_*`
  methods), modelled as pure functions from a configuration record to a list
  of emitted lines;
* the `%files` quoting helper `Specfile.quote_filename`;
* the bounded convergence loop of `src/autospec/autospec.py` (`package`,
  lines 547-562, together with `save_mock_logs`).

Each Python `self._write_strip(s)` / `self._write(s)` call is modelled as one
emitted `Line`.  Engine-constructed text becomes `Line.txt s` (with `s` built
by exactly the same string concatenations as the source's `format`/f-string
expressions); a configuration-supplied literal line echoed verbatim by a
`for line in ...: self._write("{}\n".format(line))` loop becomes `Line.usr
line`; the `export SOURCE_DATE_EPOCH={int(time.time())}` lines become
`Line.epoch t` where `t` is the wall-clock second at synthesis time, passed
explicitly; a source spot that raises (a `str.format` with more fields than
arguments) becomes `Line.err`.  `render` recovers the bytes each call
contributes.  The trailing-whitespace trimming `_write_strip` applies is a
uniform textual post-processing and is not modelled.

Python truthiness of a string / list option is modelled by `tru` / `truL`,
and the `cfg.x and cfg.x[0]` idiom by `headTru`.

Field names ending in `_mac` correspond to the source's `*_macro` options
(`macro` is a reserved word here); `o32bit`/`o32bit_only` correspond to the
`config_opts` keys `32bit`/`32bit_only`; `altflags_pgo_lst` is the *list*
attribute `config.altflags_pgo`, distinct from the boolean
`config_opts["altflags_pgo"]` (field `altflags_pgo`).
-/

/-- One emitted directive line.  `txt` is engine-constructed text, `usr` a
configuration-supplied literal line echoed verbatim (the source appends a
newline), `epoch t` the `export SOURCE_DATE_EPOCH=<t>` line whose value is
the wall-clock second, `err` marks a spot where the source raises. -/
inductive Line where
  | txt : String → Line
  | usr : String → Line
  | epoch : Nat → Line
  | err : String → Line
deriving DecidableEq, Repr

/-- The bytes a single emitter call contributes to the spec file. -/
def render : Line → String
  | .txt s => s
  | .usr s => s ++ "\n"
  | .epoch t => "export SOURCE_DATE_EPOCH=" ++ toString t
  | .err m => m

/-- Python truthiness of a string option. -/
def tru (s : String) : Bool := !s.isEmpty

/-- Python truthiness of a list option. -/
def truL {α : Type} (l : List α) : Bool := !l.isEmpty

/-- Truthiness of `l and l[0]` for a list-of-lines option. -/
def headTru : List String → Bool
  | [] => false
  | h :: _ => !h.isEmpty

/-- Echo a list of configuration-supplied lines verbatim. -/
def usrs (ls : List String) : List Line := ls.map Line.usr

/-- A `## <tag> content` / `## <tag> end` style block around verbatim lines,
emitted only when the option is non-empty (the pattern shared by the many
`write_*_prepend`/`write_*_append` helpers of `specfiles.py`). -/
def mblock (a b : String) (ls : List String) : List Line :=
  if ls.isEmpty then [] else [Line.txt a] ++ usrs ls ++ [Line.txt b]

/-- The `BuildConfiguration`: the fields of autospec's `config.Config` object
read by the embedded emitters.  Boolean fields mirror `config_opts` keys,
string fields the scalar options, list fields the literal line-list options
(`*_macro` options appear as `*_mac`). -/
structure Conf where
  asneeded : Bool := false
  use_ninja : Bool := false
  o32bit : Bool := false
  o32bit_only : Bool := false
  build_special : Bool := false
  build_special2 : Bool := false
  build_special_32 : Bool := false
  use_avx2 : Bool := false
  use_avx512 : Bool := false
  openmpi : Bool := false
  altflags_pgo : Bool := false
  altflags_pgo_ext : Bool := false
  altflags_pgo_ext_phase : Bool := false
  fsalt1 : Bool := false
  fsalt1_32 : Bool := false
  altflags_pgo_32 : Bool := false
  use_clang : Bool := false
  skip_tests : Bool := false
  ccstats : Bool := false
  altcargo_pgo : Bool := false
  altcargo1 : Bool := false
  autogen_simple : Bool := false
  subdir : String := ""
  parallel_build : String := ""
  extra_make : String := ""
  extra64_make : String := ""
  extra32_make : String := ""
  extra_make_special : String := ""
  extra_make_special2 : String := ""
  extra_make_install : String := ""
  extra_make32_install : String := ""
  extra_make_install_special : String := ""
  extra_make_install_special2 : String := ""
  extra_make_install_special_32 : String := ""
  extra_configure : String := ""
  extra_configure32 : String := ""
  extra_configure64 : String := ""
  extra_configure_special : String := ""
  extra_configure_special2 : String := ""
  extra_configure_pgo : String := ""
  extra_configure64_pgo : String := ""
  extra_configure_special_pgo : String := ""
  extra_configure_special2_pgo : String := ""
  extra_configure_special_32 : String := ""
  extra_configure_avx2 : String := ""
  extra_configure_avx512 : String := ""
  extra_configure_openmpi : String := ""
  conf_args_openmpi : String := ""
  cmake_srcdir : String := ""
  custom_clean_pgo : String := ""
  extra_cmake_pgo : String := ""
  extra_cmake_special_pgo : String := ""
  configure_mac : List String := []
  configure_mac_pgo : List String := []
  configure_mac_32 : List String := []
  configure_mac_special : List String := []
  configure_mac_special2 : List String := []
  configure_mac_special_pgo : List String := []
  configure_mac_special2_pgo : List String := []
  configure_mac_special_32 : List String := []
  configure_mac_openmpi : List String := []
  cmake_mac : List String := []
  cmake_mac_pgo : List String := []
  cmake_mac_32 : List String := []
  cmake_mac_special : List String := []
  make_mac : List String := []
  make_mac_32 : List String := []
  make_mac_pgo : List String := []
  make_mac_special : List String := []
  make_mac_special2 : List String := []
  make_mac_pgo_special : List String := []
  make_mac_pgo_special2 : List String := []
  make_append : List String := []
  make_prepend : List String := []
  make_prepend64 : List String := []
  make_prepend32 : List String := []
  build_prepend : List String := []
  build_prepend_once : List String := []
  build_prepend32 : List String := []
  build_append : List String := []
  install_mac : List String := []
  install_mac_32 : List String := []
  install_mac_512 : List String := []
  install_mac_avx2 : List String := []
  install_mac_openmpi : List String := []
  install_mac_build_special : List String := []
  install_mac_build_special2 : List String := []
  install_mac_build_special_32 : List String := []
  install_prepend : List String := []
  install_prepend_special : List String := []
  install_prepend_special2 : List String := []
  install_prepend_32 : List String := []
  install_prepend_special_32 : List String := []
  trystatic : List String := []
  profile_payload : List String := []
  profile_payload_special : List String := []
  profile_payload_special2 : List String := []
  altflags1 : List String := []
  altflags1f : List String := []
  altflags1_special : List String := []
  altflags_pgo_lst : List String := []
  altflags_pgof : List String := []
  altflagsrust_pgo : List String := []
  altflagsrust_pgof : List String := []
  altflags1_32 : List String := []
  altflags1_32f : List String := []

/-- The `Specfile` object state read by the embedded emitters: the
configuration plus the per-package attributes computed in `Specfile.__init__`
(`extra_cmake*` concatenations) and by collaborators (`tests_config`,
`license_files`, `hashes`, `name`). -/
structure Spec where
  config : Conf := {}
  name : String := ""
  tests_config : String := ""
  license_files : List String := []
  hashes : String → String := fun _ => ""
  extra_cmake : String := ""
  extra_cmake_32 : String := ""
  extra_cmake_64 : String := ""
  extra_cmake_special : String := ""
  extra_cmake_special2 : String := ""
  extra_cmake_pgo : String := ""
  extra_cmake_special_pgo : String := ""
  extra_cmake_openmpi : String := ""

/-- `write_proxy_exports` (specfiles.py 550-555). -/
def write_proxy_exports : List Line :=
  [Line.txt "unset http_proxy",
   Line.txt "unset https_proxy",
   Line.txt "unset no_proxy",
   Line.txt "export SSL_CERT_FILE=/var/cache/ca-certs/anchors/ca-certificates.crt"]

/-- `write_build_prepend` (1488-1494). -/
def write_build_prepend (sp : Spec) : List Line :=
  mblock "## build_prepend content" "## build_prepend end" sp.config.build_prepend

/-- `write_build_prepend_once` (1496-1502). -/
def write_build_prepend_once (sp : Spec) : List Line :=
  mblock "## build_prepend_once content" "## build_prepend_once end" sp.config.build_prepend_once

/-- `write_build_prepend32` (1504-1510). -/
def write_build_prepend32 (sp : Spec) : List Line :=
  mblock "## build_prepend32 content" "## build_prepend32 end" sp.config.build_prepend32

/-- `write_trystatic` (1512-1518). -/
def write_trystatic (sp : Spec) : List Line :=
  mblock "## trystatic content" "## trystatic end" sp.config.trystatic

/-- `write_make_prepend` (1520-1538). -/
def write_make_prepend (sp : Spec) (build32 : Bool) : List Line :=
  (if build32 = false then
    mblock "## make_prepend content" "## make_prepend end" sp.config.make_prepend ++
    mblock "## make_prepend64 content" "## make_prepend64 end" sp.config.make_prepend64
  else []) ++
  (if build32 = true then
    mblock "## make_prepend32 content" "## make_prepend32 end" sp.config.make_prepend32
  else [])

/-- `write_build_append` (1540-1546). -/
def write_build_append (sp : Spec) : List Line :=
  mblock "## build_append content" "## build_append end\n" sp.config.build_append

/-- `write_install_prepend` (1548-1574); `bt` is the `build_type` argument. -/
def write_install_prepend (sp : Spec) (bt : Option String) : List Line :=
  if truL sp.config.install_prepend ∧ bt = none then
    [Line.txt "## install_prepend content"] ++ usrs sp.config.install_prepend ++
      [Line.txt "## install_prepend end"]
  else if truL sp.config.install_prepend_special ∧ bt = some "special" then
    [Line.txt "## install_prepend_special content"] ++ usrs sp.config.install_prepend_special ++
      [Line.txt "## install_prepend_special end"]
  else if truL sp.config.install_prepend_special2 ∧ bt = some "special2" then
    [Line.txt "## install_prepend_special2 content"] ++ usrs sp.config.install_prepend_special2 ++
      [Line.txt "## install_prepend_special2 end"]
  else if truL sp.config.install_prepend_32 ∧ bt = some "32bit" then
    [Line.txt "## install_prepend_32 content"] ++ usrs sp.config.install_prepend_32 ++
      [Line.txt "## install_prepend_32 end"]
  else if truL sp.config.install_prepend_special_32 ∧ bt = some "build_special_32" then
    [Line.txt "## install_prepend_special_32 content"] ++ usrs sp.config.install_prepend_special_32 ++
      [Line.txt "## install_prepend_special_32 end"]
  else []

/-- `write_lang_c` (537-548).  `t` is the wall-clock second that
`int(time.time())` returns when `export_epoch` is set. -/
def write_lang_c (sp : Spec) (export_epoch : Bool) (t : Nat) : List Line :=
  [Line.txt "%build"] ++
  write_build_prepend_once sp ++
  write_build_prepend sp ++
  write_proxy_exports ++
  [Line.txt "export LANG=C.UTF-8"] ++
  (if export_epoch then [Line.epoch t] else []) ++
  (if sp.config.asneeded then [Line.txt "unset LD_AS_NEEDED\n"] else [])

/-- `write_check` (991-998). -/
def write_check (sp : Spec) : List Line :=
  if tru sp.tests_config ∧ ¬sp.config.skip_tests then
    [Line.txt "%check", Line.txt "export LANG=C.UTF-8"] ++
    write_proxy_exports ++
    [Line.txt sp.tests_config, Line.txt "\n"]
  else []

/-- `write_license_files` (1000-1007). -/
def write_license_files (sp : Spec) : List Line :=
  if 0 < sp.license_files.length then
    [Line.txt ("mkdir -p %{buildroot}/usr/share/package-licenses/" ++ sp.name)] ++
    sp.license_files.map (fun f =>
      Line.txt ("cp " ++ "%{_builddir}/" ++ f ++ " %{buildroot}/usr/share/package-licenses/" ++
        sp.name ++ "/" ++ sp.hashes f ++ "\n"))
  else []

/-- The long `export LD_LIBRARY_PATH=...` line of
`write_profile_payload_content` (1017 and the parallel spots). -/
def ldLibraryPathLine : String :=
  "export LD_LIBRARY_PATH=\"/usr/local/nvidia/lib64:/usr/local/nvidia/lib64/gbm:/usr/local/nvidia/lib64/vdpau:/usr/local/nvidia/lib64/xorg/modules/drivers:/usr/local/nvidia/lib64/xorg/modules/extensions:/usr/local/cuda/lib64:/usr/lib64/haswell:/usr/lib64/dri:/usr/lib64:/usr/lib:/aot/intel/oneapi/compiler/latest/linux/compiler/lib/intel64_lin:/aot/intel/oneapi/compiler/latest/linux/lib:/aot/intel/oneapi/mkl/latest/lib/intel64:/aot/intel/oneapi/tbb/latest/lib/intel64/gcc4.8:/usr/share:/usr/lib64/wine:/usr/local/nvidia/lib32:/usr/local/nvidia/lib32/vdpau:/usr/lib32:/usr/lib32/wine\""

/-- The long `export LIBRARY_PATH=...` line next to it (1018). -/
def libraryPathLine : String :=
  "export LIBRARY_PATH=\"/usr/local/nvidia/lib64:/usr/local/nvidia/lib64/gbm:/usr/local/nvidia/lib64/vdpau:/usr/local/nvidia/lib64/xorg/modules/drivers:/usr/local/nvidia/lib64/xorg/modules/extensions:/usr/local/cuda/lib64:/usr/lib64/haswell:/usr/lib64/dri:/usr/lib64:/usr/lib:/aot/intel/oneapi/compiler/latest/linux/compiler/lib/intel64_lin:/aot/intel/oneapi/compiler/latest/linux/lib:/aot/intel/oneapi/mkl/latest/lib/intel64:/aot/intel/oneapi/tbb/latest/lib/intel64/gcc4.8:/usr/share:/usr/lib64/wine:/usr/local/nvidia/lib32:/usr/local/nvidia/lib32/vdpau:/usr/lib32:/usr/lib32/wine\""

/-- One payload block of `write_profile_payload_content`: start marker,
unsets, the collaborator-supplied workload lines, path exports, end marker. -/
def payloadBlock (tag : String) (ls : List String) : List Line :=
  [Line.txt ("## " ++ tag ++ " start"),
   Line.txt "unset LD_LIBRARY_PATH",
   Line.txt "unset LIBRARY_PATH"] ++
  usrs ls ++
  [Line.txt ldLibraryPathLine, Line.txt libraryPathLine,
   Line.txt ("## " ++ tag ++ " end")]

/-- `write_profile_payload_content` (1009-1057). -/
def write_profile_payload_content (sp : Spec) (bt : Option String) : List Line :=
  if bt = none then
    (if truL sp.config.profile_payload then
      payloadBlock "profile_payload" sp.config.profile_payload
    else [])
  else if bt = some "special" then
    (if truL sp.config.profile_payload_special then
      payloadBlock "profile_payload_special" sp.config.profile_payload_special
    else if truL sp.config.profile_payload then
      payloadBlock "profile_payload" sp.config.profile_payload
    else [])
  else if bt = some "special2" then
    (if truL sp.config.profile_payload_special2 then
      payloadBlock "profile_payload_special2" sp.config.profile_payload_special2
    else if truL sp.config.profile_payload then
      payloadBlock "profile_payload" sp.config.profile_payload
    else [])
  else []

/-- `write_variables` (926-989); `bt` is the `build_type` argument. -/
def write_variables (sp : Spec) (bt : Option String) : List Line :=
  (if bt = none then
    (if sp.config.fsalt1 ∧ ¬sp.config.altflags_pgo then
      (if headTru sp.config.altflags1f then
        mblock "## altflags1f content" "## altflags1f end" sp.config.altflags1f
      else if headTru sp.config.altflags1 then
        mblock "## altflags1 content" "## altflags1 end" sp.config.altflags1
      else [])
    else []) ++
    (if sp.config.altflags_pgo ∧ ¬sp.config.fsalt1 then
      (if headTru sp.config.altflags_pgof then
        mblock "## altflags_pgof content" "## altflags_pgof end" sp.config.altflags_pgof
      else if headTru sp.config.altflags_pgo_lst then
        mblock "## altflags_pgo content" "## altflags_pgo end" sp.config.altflags_pgo_lst
      else [])
    else []) ++
    (if sp.config.altflags_pgo_ext ∧ ¬sp.config.altflags_pgo ∧ ¬sp.config.fsalt1 then
      (if headTru sp.config.altflags_pgof then
        mblock "## altflags_pgof content" "## altflags_pgof end" sp.config.altflags_pgof
      else if headTru sp.config.altflags_pgo_lst then
        mblock "## altflags_pgo content" "## altflags_pgo end" sp.config.altflags_pgo_lst
      else [])
    else []) ++
    (if sp.config.altcargo_pgo ∧ ¬sp.config.altcargo1 ∧ ¬sp.config.altflags_pgo_ext ∧
        ¬sp.config.altflags_pgo ∧ ¬sp.config.fsalt1 then
      (if headTru sp.config.altflagsrust_pgof then
        mblock "## altflagsrust_pgof content" "## altflagsrust_pgof end" sp.config.altflagsrust_pgof
      else if headTru sp.config.altflagsrust_pgo then
        mblock "## altflagsrust_pgo content" "## altflagsrust_pgo end" sp.config.altflagsrust_pgo
      else [])
    else [])
  else []) ++
  (if bt = some "special" then
    (if sp.config.fsalt1 ∧ ¬sp.config.altflags_pgo then
      (if headTru sp.config.altflags1_special then
        mblock "## altflags1_special content" "## altflags1_special end" sp.config.altflags1_special
      else if headTru sp.config.altflags1 then
        mblock "## altflags1 content" "## altflags1 end" sp.config.altflags1
      else [])
    else [])
  else [])

/-- `write_32bit_exports` (848-924). -/
def write_32bit_exports (sp : Spec) : List Line :=
  if sp.config.fsalt1_32 ∧ ¬sp.config.altflags_pgo_32 then
    (if headTru sp.config.altflags1_32f then
      [Line.txt "## altflags1_32f content",
       Line.txt "unset CFLAGS", Line.txt "unset CXXFLAGS", Line.txt "unset FCFLAGS",
       Line.txt "unset FFLAGS", Line.txt "unset LDFLAGS", Line.txt "unset LINKFLAGS",
       Line.txt "unset ASFLAGS", Line.txt "unset LD_LIBRARY_PATH", Line.txt "unset LIBRARY_PATH",
       Line.txt "export PKG_CONFIG_PATH=\"/usr/lib32/pkgconfig:/usr/share/pkgconfig\""] ++
      usrs sp.config.altflags1_32f ++
      [Line.txt "## altflags1_32f end"]
    else if headTru sp.config.altflags1_32 then
      [Line.txt "## altflags1_32 content",
       Line.txt "unset CFLAGS", Line.txt "unset CXXFLAGS", Line.txt "unset FCFLAGS",
       Line.txt "unset FFLAGS", Line.txt "unset LDFLAGS", Line.txt "unset LINKFLAGS",
       Line.txt "unset ASFLAGS", Line.txt "unset LD_LIBRARY_PATH", Line.txt "unset LIBRARY_PATH",
       Line.txt "export PKG_CONFIG_PATH=\"/usr/lib32/pkgconfig:/usr/share/pkgconfig\""] ++
      usrs sp.config.altflags1_32 ++
      [Line.txt "## altflags1_32 end"]
    else [])
  else if sp.config.use_clang then
    [Line.txt "export CC=clang", Line.txt "export CXX=clang++",
     Line.txt "unset LD_LIBRARY_PATH", Line.txt "unset LIBRARY_PATH", Line.txt "unset CPATH",
     Line.txt "unset ASFLAGS", Line.txt "unset CFLAGS", Line.txt "unset CXXFLAGS",
     Line.txt "unset FCFLAGS", Line.txt "unset FFLAGS", Line.txt "unset LDFLAGS",
     Line.txt "unset LINKFLAGS",
     Line.txt "export PKG_CONFIG_PATH=\"/usr/lib32/pkgconfig:/usr/share/pkgconfig\"",
     Line.txt "export ASFLAGS=\"--32\"",
     Line.txt "export CFLAGS=\"-O2 -pipe -march=native -mtune=native -m32 -mstackrealign\"",
     Line.txt "export ASMFLAGS=\"-O2 -pipe -march=native -mtune=native -m32 -mstackrealign\"",
     Line.txt "export CXXFLAGS=\"-O2 -fvisibility-inlines-hidden -pipe -march=native -mtune=native -m32 -mstackrealign\"",
     Line.txt "export FCFLAGS=\"-O2 -fvisibility-inlines-hidden -pipe -march=native -mtune=native -m32 -mstackrealign\"",
     Line.txt "export FFLAGS=\"-O2 -fvisibility-inlines-hidden -pipe -march=native -mtune=native -m32 -mstackrealign\"",
     Line.txt "export LDFLAGS=\"-O2 -pipe -march=native -mtune=native -m32 -mstackrealign\""]
  else
    [Line.txt "export AR=gcc-ar", Line.txt "export RANLIB=gcc-ranlib", Line.txt "export NM=gcc-nm",
     Line.txt "unset LD_LIBRARY_PATH", Line.txt "unset LIBRARY_PATH", Line.txt "unset CPATH",
     Line.txt "unset ASFLAGS", Line.txt "unset CFLAGS", Line.txt "unset CXXFLAGS",
     Line.txt "unset FCFLAGS", Line.txt "unset FFLAGS", Line.txt "unset LDFLAGS",
     Line.txt "unset LINKFLAGS",
     Line.txt "export PKG_CONFIG_PATH=\"/usr/lib32/pkgconfig:/usr/share/pkgconfig\"",
     Line.txt "export ASFLAGS=\"--32\"",
     Line.txt "export CFLAGS=\"-O2 -ffat-lto-objects -fuse-linker-plugin -pipe -march=native -mtune=native -m32 -mstackrealign\"",
     Line.txt "export ASMFLAGS=\"-O2 -ffat-lto-objects -fuse-linker-plugin -pipe -march=native -mtune=native -m32 -mstackrealign\"",
     Line.txt "export CXXFLAGS=\"-O2 -ffat-lto-objects -fuse-linker-plugin -fvisibility-inlines-hidden -pipe -march=native -mtune=native -m32 -mstackrealign\"",
     Line.txt "export FCFLAGS=\"-O2 -ffat-lto-objects -fuse-linker-plugin -fvisibility-inlines-hidden -pipe -march=native -mtune=native -m32 -mstackrealign\"",
     Line.txt "export FFLAGS=\"-O2 -ffat-lto-objects -fuse-linker-plugin -fvisibility-inlines-hidden -pipe -march=native -mtune=native -m32 -mstackrealign\"",
     Line.txt "export LDFLAGS=\"-O2 -ffat-lto-objects -fuse-linker-plugin -pipe -march=native -mtune=native -m32 -mstackrealign\""]

/-- The generate-phase flag exports returned by `get_profile_generate_flags`
(1788-1796 and 1798-1806: both branches return the same text). -/
def generateFlagsStr : String :=
  "export CFLAGS=\"${CFLAGS_GENERATE}\"\nexport CXXFLAGS=\"${CXXFLAGS_GENERATE}\"\nexport FFLAGS=\"${FFLAGS_GENERATE}\"\nexport FCFLAGS=\"${FCFLAGS_GENERATE}\"\nexport LDFLAGS=\"${LDFLAGS_GENERATE}\"\nexport ASMFLAGS=\"${ASMFLAGS_GENERATE}\"\nexport LIBS=\"${LIBS_GENERATE}\"\n"

/-- The use-phase flag exports returned by `get_profile_use_flags`
(1812 and 1814: both branches return the same text). -/
def useFlagsStr : String :=
  "export CFLAGS=\"${CFLAGS_USE}\"\nexport CXXFLAGS=\"${CXXFLAGS_USE}\"\nexport FFLAGS=\"${FFLAGS_USE}\"\nexport FCFLAGS=\"${FCFLAGS_USE}\"\nexport LDFLAGS=\"${LDFLAGS_USE}\"\nexport ASMFLAGS=\"${ASMFLAGS_USE}\"\nexport LIBS=\"${LIBS_USE}\"\n"

/-- `get_profile_generate_flags` (1785-1807). -/
def get_profile_generate_flags (sp : Spec) : String :=
  if headTru sp.config.profile_payload ∧ sp.config.altflags_pgo ∧ ¬sp.config.fsalt1 then
    generateFlagsStr
  else if sp.config.altflags_pgo_ext ∧ ¬sp.config.fsalt1 then
    generateFlagsStr
  else ""

/-- `get_profile_use_flags` (1809-1815). -/
def get_profile_use_flags (sp : Spec) : String :=
  if headTru sp.config.profile_payload ∧ sp.config.altflags_pgo ∧ ¬sp.config.fsalt1 then
    useFlagsStr
  else if sp.config.altflags_pgo_ext ∧ ¬sp.config.fsalt1 then
    useFlagsStr
  else ""

/-- `write_make_line` (557-680).  `bt` is `build_type`, `pgo` the tri-valued
`pgo` argument (`none` / `some false` / `some true`), `pattern` the pattern
tag.  The `build_type == "special"`/`"special2"` default invocations at
623-632 and 648-657 apply a three-field `str.format` to two arguments and
raise `IndexError` in the source; they are modelled as `Line.err`. -/
def write_make_line (sp : Spec) (build32 : Bool) (bt : Option String)
    (pgo : Option Bool) (pattern : Option String) : List Line :=
  mblock "## trystatic content" "## trystatic end" sp.config.trystatic ++
  (if build32 = false then
    mblock "## make_prepend content" "## make_prepend end" sp.config.make_prepend ++
    mblock "## make_prepend64 content" "## make_prepend64 end" sp.config.make_prepend64
  else []) ++
  (if build32 = true then
    mblock "## make_prepend32 content" "## make_prepend32 end" sp.config.make_prepend32
  else []) ++
  (if build32 = true ∧ bt = none then
    (if sp.config.make_mac_32.isEmpty then
      (if sp.config.use_ninja then
        [Line.txt ("ninja --verbose " ++ sp.config.parallel_build ++ " " ++
          sp.config.extra_make ++ " " ++ sp.config.extra32_make)]
      else
        [Line.txt ("make " ++ sp.config.parallel_build ++ " " ++ sp.config.extra_make ++ " " ++
          sp.config.extra32_make ++ " V=1 VERBOSE=1")])
    else
      mblock "## make_macro_32 content" "## make_macro_32 end" sp.config.make_mac_32)
  else if build32 = false ∧ bt = none then
    (if sp.config.make_mac.isEmpty then
      (if sp.config.use_ninja then
        [Line.txt ("ninja --verbose " ++ sp.config.parallel_build ++ " " ++
          sp.config.extra_make ++ " " ++ sp.config.extra64_make)]
      else if pattern = some "make" ∧ pgo = some false then
        [Line.txt ("make " ++ sp.config.parallel_build ++ " " ++ sp.config.extra_make ++ " " ++
          sp.config.extra64_make ++ " V=1 VERBOSE=1")]
      else if pattern = some "make" ∧ pgo = some true then
        [Line.txt ("make " ++ sp.config.parallel_build ++ " " ++ sp.config.extra_make ++ " " ++
          sp.config.extra64_make ++ " V=1 VERBOSE=1")]
      else if pattern = some "make" ∧ pgo = none then
        [Line.txt ("make " ++ sp.config.parallel_build ++ " " ++ sp.config.extra_make ++ " " ++
          sp.config.extra64_make ++
          " V=1 VERBOSE=1 CFLAGS=\"${CFLAGS}\" ASMFLAGS=\"${ASMFLAGS}\" CXXFLAGS=\"${CXXFLAGS}\" FFLAGS=\"${FFLAGS}\" FCFLAGS=\"${FCFLAGS}\" LDFLAGS=\"${LDFLAGS}\" LIBS+=\"${LIBS}\"")]
      else if pattern ≠ some "make" then
        [Line.txt ("make " ++ sp.config.parallel_build ++ " " ++ sp.config.extra_make ++ " " ++
          sp.config.extra64_make ++ " V=1 VERBOSE=1")]
      else [])
    else
      (if pgo = some true ∧ ¬sp.config.make_mac_pgo.isEmpty then
        mblock "## make_macro_pgo content" "## make_macro_pgo end" sp.config.make_mac_pgo
      else
        mblock "## make_macro content" "## make_macro end" sp.config.make_mac))
  else if build32 = false ∧ bt = some "special" then
    (if sp.config.make_mac_special.isEmpty then
      [Line.err "IndexError: three-field format applied to two arguments (623-632)"]
    else
      (if pgo = some true ∧ ¬sp.config.make_mac_pgo_special.isEmpty then
        mblock "## make_macro_pgo_special content" "## make_macro_pgo_special end"
          sp.config.make_mac_pgo_special
      else
        mblock "## make_macro_special content" "## make_macro_special end"
          sp.config.make_mac_special))
  else if build32 = false ∧ bt = some "special2" then
    (if sp.config.make_mac_special2.isEmpty then
      [Line.err "IndexError: three-field format applied to two arguments (648-657)"]
    else
      (if pgo = some true ∧ ¬sp.config.make_mac_pgo_special2.isEmpty then
        mblock "## make_macro_pgo_special2 content" "## make_macro_pgo_special2 end"
          sp.config.make_mac_pgo_special2
      else
        mblock "## make_macro_special2 content" "## make_macro_special2 end"
          sp.config.make_mac_special2))
  else []) ++
  mblock "## make_append content" "## make_append end" sp.config.make_append ++
  (if sp.config.ccstats then
    [Line.txt "## ccache stats", Line.txt "ccache -s || : \n", Line.txt "## ccache stats"]
  else []) ++
  (if pgo = some true ∧ ¬sp.config.altflags_pgo_ext then [Line.txt "fi"] else [])

/-- `write_install_openmpi` (682-691). -/
def write_install_openmpi (sp : Spec) : List Line :=
  [Line.txt "module load openmpi"] ++
  (if sp.config.use_ninja then
    [Line.txt ("%ninja_install_openmpi " ++ sp.config.extra_make_install)]
  else
    [Line.txt ("%make_install_openmpi " ++ sp.config.extra_make_install)]) ++
  [Line.txt "module unload openmpi"]

/-- `write_cmake_line_openmpi` (693-701). -/
def write_cmake_line_openmpi (sp : Spec) : List Line :=
  [Line.txt ("cmake -G \"Unix Makefiles\" -DCMAKE_INSTALL_PREFIX=$MPI_ROOT -DCMAKE_INSTALL_SBINDIR=$MPI_BIN \\\n-DCMAKE_INSTALL_LIBDIR=$MPI_LIB -DCMAKE_INSTALL_INCLUDEDIR=$MPI_INCLUDE -DLIB_INSTALL_DIR=$MPI_LIB \\\n-DBUILD_SHARED_LIBS:BOOL=ON -DLIB_SUFFIX=64 \\\n-DCMAKE_AR=/usr/bin/gcc-ar -DCMAKE_BUILD_TYPE=RelWithDebInfo -DCMAKE_NM=/usr/bin/gcc-nm -DCMAKE_RANLIB=/usr/bin/gcc-ranlib \\\n" ++
    " " ++ sp.config.cmake_srcdir ++ " " ++ sp.extra_cmake_openmpi)]

/-- `write_profile_payload` (1059-1176): the in-process two-phase PGO
wrapper.  Returns `[]` when `(not profile_payload and not altflags_pgo) or
fsalt1` (1061-1062); otherwise opens the marker conditional, emits the
phase-1 work, writes the marker, and opens (without closing) the phase-2
conditional — the caller's use-phase build follows, and the closing `fi`
comes from `write_make_line` with `pgo=True` (679-680). -/
def write_profile_payload (sp : Spec) (pattern : Option String) (bt : Option String) : List Line :=
  if (¬truL sp.config.profile_payload ∧ ¬sp.config.altflags_pgo) ∨ sp.config.fsalt1 then []
  else
    let pushdSub : List Line :=
      if tru sp.config.subdir then [Line.txt ("pushd " ++ sp.config.subdir)] else []
    let gen := get_profile_generate_flags sp
    let pis : List Line × String × String × String :=
      if pattern = some "configure" ∧ bt = some "special" then
        (if truL sp.config.configure_mac_special then
          (pushdSub ++ [Line.txt gen] ++ write_build_append sp ++
            usrs sp.config.configure_mac_special, "", "", "")
        else
          (pushdSub, gen, "%configure " ++ sp.config.extra_configure_special, ""))
      else if pattern = some "configure" ∧ bt = some "special2" then
        (if truL sp.config.configure_mac_special2 then
          (pushdSub ++ [Line.txt gen] ++ write_build_append sp ++
            usrs sp.config.configure_mac_special2, "", "", "")
        else
          (pushdSub, gen, "%configure " ++ sp.config.extra_configure_special2, ""))
      else if pattern = some "configure" ∧ bt = none then
        (if truL sp.config.configure_mac then
          (pushdSub ++ [Line.txt gen] ++ write_build_append sp ++
            usrs sp.config.configure_mac, "", "", "")
        else
          (pushdSub, gen,
            "%configure " ++ sp.config.extra_configure ++ " " ++ sp.config.extra_configure64 ++ " ",
            ""))
      else if pattern = some "configure_ac" ∧ bt = some "special" then
        (pushdSub, gen, "%reconfigure " ++ sp.config.extra_configure_special, "")
      else if pattern = some "configure_ac" ∧ bt = some "special2" then
        (pushdSub, gen, "%reconfigure " ++ sp.config.extra_configure_special2, "")
      else if pattern = some "configure_ac" ∧ bt = none then
        (pushdSub, gen, "%reconfigure " ++ sp.config.extra_configure64, "")
      else if pattern = some "autogen" ∧ bt = some "special" then
        (pushdSub, gen,
          (if sp.config.autogen_simple then "%autogen_simple " ++ sp.config.extra_configure_special
           else "%autogen " ++ sp.config.extra_configure_special), "")
      else if pattern = some "autogen" ∧ bt = some "special2" then
        (pushdSub, gen,
          (if sp.config.autogen_simple then "%autogen_simple " ++ sp.config.extra_configure_special2
           else "%autogen " ++ sp.config.extra_configure_special2), "")
      else if pattern = some "autogen" ∧ bt = none then
        (pushdSub, gen,
          (if sp.config.autogen_simple then
            "%autogen_simple " ++ sp.config.extra_configure ++ " " ++ sp.config.extra_configure64
           else "%autogen " ++ sp.config.extra_configure ++ " " ++ sp.config.extra_configure64), "")
      else if pattern = some "make" then
        (pushdSub, gen, "", get_profile_use_flags sp ++ " ")
      else ([], "", "", "")
    let (pre, init, init2, post) := pis
    [Line.txt "if [ ! -f statuspgo ]; then", Line.txt "\necho PGO Phase 1\n"] ++
    pre ++
    (if tru init then
      [Line.txt init] ++ write_build_append sp ++
      (if tru init2 then [Line.txt init2] else [])
    else []) ++
    write_make_line sp false bt (some false) pattern ++
    [Line.txt "\n"] ++
    write_profile_payload_content sp bt ++
    (if tru sp.config.custom_clean_pgo then
      [Line.txt (sp.config.custom_clean_pgo ++ "\n")]
    else
      [Line.txt "\nmake clean || :\n"]) ++
    (if tru sp.config.subdir then [Line.txt "popd"] else []) ++
    [Line.txt "echo USED > statuspgo", Line.txt "fi",
     Line.txt "if [ -f statuspgo ]; then", Line.txt "echo PGO Phase 2\n"] ++
    (if tru post then [Line.txt post] else [])

/-- `write_make_install`, first half (1326-1382): the `%install` header,
`SOURCE_DATE_EPOCH` export, buildroot wipe, license installs, and the
32-bit / special-32-bit install steps gated on `config_opts["32bit"]`. -/
def wmiHeader (sp : Spec) (t : Nat) : List Line :=
  [Line.txt "%install", Line.epoch t, Line.txt "rm -rf %{buildroot}"] ++
  write_license_files sp ++
  (if sp.config.o32bit then
    write_32bit_exports sp ++
    write_install_prepend sp (some "32bit") ++
    (if truL sp.config.install_mac_32 then
      [Line.txt "## install_macro_32 start"] ++ usrs sp.config.install_mac_32 ++
        [Line.txt "## install_macro_32 end"]
    else
      [Line.txt ("pushd ../build32/" ++ sp.config.subdir),
       Line.txt ("%make_install32 " ++ sp.config.extra_make32_install),
       Line.txt "if [ -d  %{buildroot}/usr/lib32/pkgconfig ]",
       Line.txt "then",
       Line.txt "    pushd %{buildroot}/usr/lib32/pkgconfig\n",
       Line.txt "    for i in *.pc ; do ln -s $i 32$i ; done\n",
       Line.txt "    popd\n",
       Line.txt "fi",
       Line.txt "if [ -d %{buildroot}/usr/share/pkgconfig ]",
       Line.txt "then",
       Line.txt "    pushd %{buildroot}/usr/share/pkgconfig",
       Line.txt "    for i in *.pc ; do ln -s $i 32$i ; done",
       Line.txt "    popd",
       Line.txt "fi",
       Line.txt "popd"]) ++
    (if sp.config.build_special_32 then
      write_32bit_exports sp ++
      write_install_prepend sp (some "build_special_32") ++
      (if truL sp.config.install_mac_build_special_32 then
        [Line.txt "## install_macro_build_special_32 start"] ++
          usrs sp.config.install_mac_build_special_32 ++
          [Line.txt "## install_macro_build_special_32 end"]
      else
        [Line.txt ("pushd ../build-special-32/" ++ sp.config.subdir)] ++
        (if tru sp.config.extra_make_install_special_32 then
          [Line.txt ("%make_install32 " ++ sp.config.extra_make_install_special_32)]
        else
          [Line.txt ("%make_install32 " ++ sp.config.extra_make32_install)]) ++
        [Line.txt "if [ -d  %{buildroot}/usr/lib32/pkgconfig ]",
         Line.txt "then",
         Line.txt "    pushd %{buildroot}/usr/lib32/pkgconfig\n",
         Line.txt "    for i in *.pc ; do ln -s $i 32$i || :; done\n",
         Line.txt "    popd\n",
         Line.txt "fi",
         Line.txt "if [ -d %{buildroot}/usr/share/pkgconfig ]",
         Line.txt "then",
         Line.txt "    pushd %{buildroot}/usr/share/pkgconfig",
         Line.txt "    for i in *.pc ; do ln -s $i 32$i ; done",
         Line.txt "    popd",
         Line.txt "fi",
         Line.txt "popd"])
    else [])
  else [])

/-- The per-step profile-flag export of `write_make_install` (1419-1425,
1439-1445, 1458-1464): generate-flags in the externally-phased generate
round, use-flags otherwise. -/
def wmiProfileFlags (sp : Spec) : List Line :=
  if sp.config.altflags_pgo_ext then
    (if ¬sp.config.altflags_pgo_ext_phase then
      [Line.txt (get_profile_generate_flags sp)]
    else
      [Line.txt (get_profile_use_flags sp)])
  else
    [Line.txt (get_profile_use_flags sp)]

/-- `write_make_install`, second half (1383-1477): the avx512 / avx2 /
openmpi / special / special2 install steps and the final default (64-bit)
install step, all gated on `not config_opts["32bit_only"]`. -/
def wmiGated (sp : Spec) : List Line :=
  (if sp.config.use_avx512 then
    (if truL sp.config.install_mac_512 then
      [Line.txt "## install_macro_512 start"] ++ usrs sp.config.install_mac_512 ++
        [Line.txt "## install_macro_512 end"]
    else
      [Line.txt ("pushd ../buildavx512/" ++ sp.config.subdir),
       Line.txt ("%make_install_avx512 " ++ sp.config.extra_make_install ++ "\n"),
       Line.txt "popd"])
  else []) ++
  (if sp.config.use_avx2 then
    (if truL sp.config.install_mac_avx2 then
      [Line.txt "## install_macro_avx2 start"] ++ usrs sp.config.install_mac_avx2 ++
        [Line.txt "## install_macro_avx2 end"]
    else
      [Line.txt ("pushd ../buildavx2/" ++ sp.config.subdir),
       Line.txt ("%make_install_avx2 " ++ sp.config.extra_make_install ++ "\n"),
       Line.txt "popd"])
  else []) ++
  (if sp.config.openmpi then
    (if truL sp.config.install_mac_openmpi then
      [Line.txt "## install_macro_openmpi start"] ++ usrs sp.config.install_mac_openmpi ++
        [Line.txt "## install_macro_openmpi end"]
    else
      [Line.txt ("pushd ../build-openmpi/" ++ sp.config.subdir)] ++
      write_install_openmpi sp ++
      [Line.txt "popd"])
  else []) ++
  (if sp.config.build_special then
    write_variables sp (some "special") ++
    wmiProfileFlags sp ++
    write_install_prepend sp (some "special") ++
    (if truL sp.config.install_mac_build_special then
      [Line.txt "## install_macro_build_special start\n"] ++
        usrs sp.config.install_mac_build_special ++
        [Line.txt "## install_macro_build_special end\n"]
    else
      [Line.txt ("pushd ../build-special/" ++ sp.config.subdir),
       Line.txt ("%make_install_special " ++ sp.config.extra_make_install_special ++ "\n"),
       Line.txt "popd"])
  else []) ++
  (if sp.config.build_special2 then
    write_variables sp none ++
    wmiProfileFlags sp ++
    write_install_prepend sp (some "special2") ++
    (if truL sp.config.install_mac_build_special2 then
      [Line.txt "## install_macro_build_special2 start"] ++
        usrs sp.config.install_mac_build_special2 ++
        [Line.txt "## install_macro_build_special2 end"]
    else
      [Line.txt ("pushd ../build-special2/" ++ sp.config.subdir),
       Line.txt ("%make_install_special2 " ++ sp.config.extra_make_install_special2 ++ "\n"),
       Line.txt "popd"])
  else []) ++
  write_variables sp none ++
  wmiProfileFlags sp ++
  write_install_prepend sp none ++
  (if tru sp.config.subdir then [Line.txt ("pushd " ++ sp.config.subdir)] else []) ++
  (if truL sp.config.install_mac then
    [Line.txt "## install_macro start"] ++ usrs sp.config.install_mac ++
      [Line.txt "## install_macro end"]
  else
    [Line.txt ("%make_install " ++ sp.config.extra_make_install ++ "\n")]) ++
  (if tru sp.config.subdir then [Line.txt "popd"] else [])

/-- `write_make_install` (1324-1478).  `t` is the wall-clock second embedded
in the `SOURCE_DATE_EPOCH` export (1328). -/
def write_make_install (sp : Spec) (t : Nat) : List Line :=
  wmiHeader sp t ++ (if ¬sp.config.o32bit_only then wmiGated sp else [])

/-- The in-process two-phase PGO condition of the cmake composer
(2933, 3015): `profile_payload and profile_payload[0] and
config_opts["altflags_pgo"] and not config_opts["fsalt1"]`. -/
def cmakeInproc (sp : Spec) : Bool :=
  headTru sp.config.profile_payload ∧ sp.config.altflags_pgo ∧ ¬sp.config.fsalt1

/-- The externally-phased PGO condition of the cmake composer (2972, 3056):
`altflags_pgo_ext and not altflags_pgo and not fsalt1`. -/
def cmakeExtCond (sp : Spec) : Bool :=
  sp.config.altflags_pgo_ext ∧ ¬sp.config.altflags_pgo ∧ ¬sp.config.fsalt1

/-- `write_cmake_pattern`, default 64-bit build block (2931-3012):
`clr-build` setup followed by the in-process two-phase PGO wrapper, the
externally-phased single-phase form, or the plain build. -/
def cmakeDefault64 (sp : Spec) : List Line :=
  [Line.txt "mkdir -p clr-build", Line.txt "pushd clr-build"] ++
  (if cmakeInproc sp then
    write_build_prepend sp ++
    write_variables sp none ++
    write_build_append sp ++
    [Line.txt "if [ ! -f statuspgo ]; then", Line.txt "\necho PGO Phase 1\n"] ++
    (if tru (get_profile_generate_flags sp) then [Line.txt (get_profile_generate_flags sp)] else []) ++
    (if truL sp.config.cmake_mac then usrs sp.config.cmake_mac
     else [Line.txt ("%cmake " ++ sp.config.cmake_srcdir ++ " " ++ sp.extra_cmake ++ " " ++
       sp.extra_cmake_64)]) ++
    write_make_line sp false none none none ++
    [Line.txt "\n"] ++
    write_profile_payload_content sp none ++
    (if tru sp.config.custom_clean_pgo then
      [Line.txt (sp.config.custom_clean_pgo ++ "\n")]
    else
      [Line.txt "\nfind . -type f,l -not -name '*.gcno' -not -name 'statuspgo*' -delete -print"]) ++
    [Line.txt "echo USED > statuspgo", Line.txt "fi",
     Line.txt "if [ -f statuspgo ]; then", Line.txt "echo PGO Phase 2\n"] ++
    (if tru (get_profile_use_flags sp) then [Line.txt (get_profile_use_flags sp)] else []) ++
    (if truL sp.config.cmake_mac_pgo then usrs sp.config.cmake_mac_pgo
     else if truL sp.config.cmake_mac then usrs sp.config.cmake_mac
     else if tru sp.config.extra_cmake_pgo then
       [Line.txt ("%cmake " ++ sp.config.cmake_srcdir ++ " " ++ sp.extra_cmake_pgo)]
     else []) ++
    write_make_line sp false none none none ++
    [Line.txt "fi", Line.txt "popd"]
  else if cmakeExtCond sp then
    (if ¬sp.config.altflags_pgo_ext_phase then
      write_build_prepend sp ++
      write_variables sp none ++
      write_build_append sp ++
      [Line.txt "\necho PGO Phase 1\n"] ++
      (if truL sp.config.cmake_mac then usrs sp.config.cmake_mac
       else [Line.txt (get_profile_generate_flags sp ++ " %cmake " ++ sp.config.cmake_srcdir ++
         " " ++ sp.extra_cmake ++ " " ++ sp.extra_cmake_64)]) ++
      write_make_line sp false none none none ++
      write_profile_payload_content sp none ++
      [Line.txt "popd"]
    else
      write_build_prepend sp ++
      write_variables sp none ++
      write_build_append sp ++
      [Line.txt "\necho PGO Phase 2\n"] ++
      (if truL sp.config.cmake_mac_pgo then usrs sp.config.cmake_mac_pgo
       else if truL sp.config.cmake_mac then usrs sp.config.cmake_mac
       else if tru sp.config.extra_cmake_pgo then
         [Line.txt (get_profile_use_flags sp ++ " %cmake " ++ sp.config.cmake_srcdir ++ " " ++
           sp.extra_cmake_pgo)]
       else []) ++
      write_make_line sp false none (some true) none ++
      [Line.txt "popd"])
  else
    write_build_prepend sp ++
    write_variables sp none ++
    write_build_append sp ++
    (if truL sp.config.cmake_mac then usrs sp.config.cmake_mac
     else [Line.txt ("%cmake " ++ sp.config.cmake_srcdir ++ " " ++ sp.extra_cmake ++ " " ++
       sp.extra_cmake_64)]) ++
    write_make_line sp false none none none ++
    [Line.txt "popd"])

/-- `write_cmake_pattern`, `build_special` block body (3015-3100), keyed on
the `statuspgo.special` marker in the in-process form. -/
def cmakeSpecialBlock (sp : Spec) : List Line :=
  if cmakeInproc sp then
    [Line.txt "mkdir -p clr-build-special", Line.txt "pushd clr-build-special"] ++
    write_build_prepend sp ++
    write_variables sp none ++
    write_build_append sp ++
    [Line.txt "if [ ! -f statuspgo.special ]; then", Line.txt "\necho PGO Phase 1\n"] ++
    (if tru (get_profile_generate_flags sp) then [Line.txt (get_profile_generate_flags sp)] else []) ++
    (if truL sp.config.cmake_mac_special then usrs sp.config.cmake_mac_special
     else [Line.txt ("%cmake " ++ sp.config.cmake_srcdir ++ " " ++ sp.extra_cmake_special)]) ++
    write_make_line sp false none none none ++
    [Line.txt "\n"] ++
    write_profile_payload_content sp (some "special") ++
    (if tru sp.config.custom_clean_pgo then
      [Line.txt (sp.config.custom_clean_pgo ++ "\n")]
    else
      [Line.txt "\nfind . -type f,l -not -name '*.gcno' -not -name 'statuspgo*' -delete -print\n"]) ++
    [Line.txt "echo USED > statuspgo.special\n", Line.txt "fi",
     Line.txt "if [ -f statuspgo.special ]; then", Line.txt "echo PGO Phase 2\n"] ++
    (if tru (get_profile_use_flags sp) then [Line.txt (get_profile_use_flags sp)] else []) ++
    (if truL sp.config.cmake_mac_special then usrs sp.config.cmake_mac_special
     else if tru sp.config.extra_cmake_special_pgo then
       [Line.txt ("%cmake " ++ sp.config.cmake_srcdir ++ " " ++ sp.extra_cmake_special_pgo)]
     else [Line.txt ("%cmake " ++ sp.config.cmake_srcdir ++ " " ++ sp.extra_cmake_special)]) ++
    write_make_line sp false none none none ++
    [Line.txt "fi", Line.txt "popd"]
  else if cmakeExtCond sp then
    (if ¬sp.config.altflags_pgo_ext_phase then
      [Line.txt "mkdir -p clr-build-special", Line.txt "pushd clr-build-special"] ++
      write_build_prepend sp ++
      write_variables sp none ++
      write_build_append sp ++
      [Line.txt "\necho PGO Phase 1\n"] ++
      (if truL sp.config.cmake_mac_special then usrs sp.config.cmake_mac_special
       else [Line.txt (get_profile_generate_flags sp ++ " %cmake " ++ sp.config.cmake_srcdir ++
         " " ++ sp.extra_cmake_special)]) ++
      write_make_line sp false (some "special") none none ++
      write_profile_payload_content sp (some "special") ++
      [Line.txt "popd"]
    else
      [Line.txt "mkdir -p clr-build-special", Line.txt "pushd clr-build-special"] ++
      write_build_prepend sp ++
      write_variables sp none ++
      write_build_append sp ++
      [Line.txt "\necho PGO Phase 2\n"] ++
      (if truL sp.config.cmake_mac_special then usrs sp.config.cmake_mac_special
       else if tru sp.config.extra_cmake_special_pgo then
         [Line.txt (get_profile_use_flags sp ++ " %cmake " ++ sp.config.cmake_srcdir ++ " " ++
           sp.extra_cmake_special_pgo)]
       else []) ++
      write_make_line sp false (some "special") (some true) none ++
      [Line.txt "popd"])
  else
    [Line.txt "mkdir -p clr-build-special", Line.txt "pushd clr-build-special"] ++
    write_build_prepend sp ++
    write_variables sp none ++
    write_build_append sp ++
    (if truL sp.config.cmake_mac_special then usrs sp.config.cmake_mac_special
     else [Line.txt ("%cmake " ++ sp.config.cmake_srcdir ++ " " ++ sp.extra_cmake_special)]) ++
    write_make_line sp false none none none ++
    [Line.txt "popd"]

/-- `write_cmake_pattern`, avx2 block body (3103-3116). -/
def cmakeAvx2Block (sp : Spec) : List Line :=
  [Line.txt "mkdir -p clr-build-avx2", Line.txt "pushd clr-build-avx2"] ++
  write_build_prepend sp ++
  write_variables sp none ++
  [Line.txt "export CFLAGS=\"$CFLAGS -march=native -mtune=native -m64\"",
   Line.txt "export CXXFLAGS=\"$CXXFLAGS -march=native -mtune=native -m64\"",
   Line.txt "export FFLAGS=\"$FFLAGS -march=native -mtune=native -m64\"",
   Line.txt "export FCFLAGS=\"$FCFLAGS -march=native -mtune=native -m64\"",
   Line.txt ("%cmake " ++ sp.config.cmake_srcdir ++ " " ++ sp.extra_cmake)] ++
  write_make_line sp false none none none ++
  [Line.txt "popd"]

/-- `write_cmake_pattern`, avx512 block body (3119-3132). -/
def cmakeAvx512Block (sp : Spec) : List Line :=
  [Line.txt "mkdir -p clr-build-avx512", Line.txt "pushd clr-build-avx512"] ++
  write_build_prepend sp ++
  write_variables sp none ++
  [Line.txt "export CFLAGS=\"$CFLAGS -march=skylake-avx512 -m64 \"",
   Line.txt "export CXXFLAGS=\"$CXXFLAGS -march=skylake-avx512 -m64 \"",
   Line.txt "export FFLAGS=\"$FFLAGS -march=skylake-avx512 -m64 \"",
   Line.txt "export FCFLAGS=\"$FCFLAGS -march=skylake-avx512 -m64 \"",
   Line.txt ("%cmake " ++ sp.config.cmake_srcdir ++ " " ++ sp.extra_cmake)] ++
  write_make_line sp false none none none ++
  [Line.txt "popd"]

/-- `write_cmake_pattern`, openmpi block body (3135-3151). -/
def cmakeOpenmpiBlock (sp : Spec) : List Line :=
  [Line.txt "mkdir -p clr-build-openmpi", Line.txt "pushd clr-build-openmpi",
   Line.txt ". /usr/share/defaults/etc/profile.d/modules.sh",
   Line.txt "module load openmpi"] ++
  write_build_prepend sp ++
  write_variables sp none ++
  [Line.txt "export CFLAGS=\"$CFLAGS -march=native -mtune=native -m64\"",
   Line.txt "export CXXFLAGS=\"$CXXFLAGS -march=native -mtune=native -m64\"",
   Line.txt "export FCFLAGS=\"$FCFLAGS -march=native -mtune=native -m64\"",
   Line.txt "export FFLAGS=\"$FFLAGS -march=native -mtune=native -m64\""] ++
  write_cmake_line_openmpi sp ++
  write_make_line sp false none none none ++
  [Line.txt "module unload openmpi", Line.txt "popd"]

/-- `write_cmake_pattern`, 32-bit block body (3154-3174). -/
def cmake32Block (sp : Spec) : List Line :=
  if truL sp.config.cmake_mac_32 then
    [Line.txt "mkdir -p clr-build32", Line.txt "pushd clr-build32"] ++
    write_build_prepend32 sp ++
    write_32bit_exports sp ++
    write_build_append sp ++
    usrs sp.config.cmake_mac_32 ++
    write_make_line sp true none (some false) none ++
    [Line.txt "unset PKG_CONFIG_PATH", Line.txt "popd"]
  else
    [Line.txt "mkdir -p clr-build32", Line.txt "pushd clr-build32"] ++
    write_build_prepend32 sp ++
    write_32bit_exports sp ++
    write_build_append sp ++
    [Line.txt ("%cmake " ++ sp.config.cmake_srcdir ++
      " -DLIB_INSTALL_DIR:PATH=/usr/lib32 -DCMAKE_INSTALL_LIBDIR=/usr/lib32 -DLIB_SUFFIX=32 " ++
      sp.extra_cmake ++ " " ++ sp.extra_cmake_32)] ++
    write_make_line sp true none (some false) none ++
    [Line.txt "unset PKG_CONFIG_PATH", Line.txt "popd"]

/-- The `%build` section of `write_cmake_pattern` (2922-3179: everything the
method emits between `write_prep` — delegated to the out-of-scope `%prep`
machinery — and `write_check`/`write_cmake_install`).  `t` is the wall-clock
second used for `SOURCE_DATE_EPOCH`. -/
def write_cmake_pattern_build (sp : Spec) (t : Nat) : List Line :=
  write_lang_c sp true t ++
  (if tru sp.config.subdir then [Line.txt ("pushd " ++ sp.config.subdir)] else []) ++
  (if ¬sp.config.o32bit_only then
    cmakeDefault64 sp ++
    (if sp.config.build_special then cmakeSpecialBlock sp else []) ++
    (if sp.config.use_avx2 then cmakeAvx2Block sp else []) ++
    (if sp.config.use_avx512 then cmakeAvx512Block sp else []) ++
    (if sp.config.openmpi then cmakeOpenmpiBlock sp else [])
  else []) ++
  (if sp.config.o32bit then cmake32Block sp else []) ++
  (if tru sp.config.subdir then [Line.txt "popd"] else []) ++
  [Line.txt "\n"]

/-- The `pushd <subdir>` step emitted when the `subdir` option is set. -/
def pushdSubdir (sp : Spec) : List Line :=
  if tru sp.config.subdir then [Line.txt ("pushd " ++ sp.config.subdir)] else []

/-- The matching `popd` for `pushdSubdir`. -/
def popdSubdir (sp : Spec) : List Line :=
  if tru sp.config.subdir then [Line.txt "popd"] else []

/-- The in-process two-phase PGO condition of the configure composer
(1978, 2073, 2173): `profile_payload and altflags_pgo and not fsalt1`
(truthiness of the whole payload list, not of its first line). -/
def confInproc (sp : Spec) : Bool :=
  truL sp.config.profile_payload ∧ sp.config.altflags_pgo ∧ ¬sp.config.fsalt1

/-- `write_configure_pattern`, default 64-bit build block (1978-2066). -/
def confDefaultBlock (sp : Spec) : List Line :=
  if confInproc sp then
    write_profile_payload sp (some "configure") none ++
    (if truL sp.config.configure_mac_pgo then
      pushdSubdir sp ++
      [Line.txt (get_profile_use_flags sp)] ++
      usrs sp.config.configure_mac_pgo ++
      write_make_line sp false none (some true) (some "configure") ++
      popdSubdir sp ++ [Line.txt "\n"]
    else if truL sp.config.configure_mac then
      pushdSubdir sp ++
      [Line.txt (get_profile_use_flags sp)] ++
      usrs sp.config.configure_mac ++
      write_make_line sp false none (some true) (some "configure") ++
      popdSubdir sp ++ [Line.txt "\n"]
    else
      pushdSubdir sp ++
      [Line.txt (get_profile_use_flags sp ++ "%configure " ++ sp.config.extra_configure_pgo)] ++
      write_make_line sp false none (some true) (some "configure") ++
      popdSubdir sp ++ [Line.txt "\n"])
  else if sp.config.altflags_pgo_ext ∧ ¬sp.config.altflags_pgo ∧ ¬sp.config.fsalt1 then
    (if ¬sp.config.altflags_pgo_ext_phase then
      [Line.txt "\necho PGO Phase 1\n"] ++
      (if truL sp.config.configure_mac then
        pushdSubdir sp ++
        [Line.txt (get_profile_generate_flags sp)] ++
        write_build_append sp ++
        usrs sp.config.configure_mac
      else
        pushdSubdir sp ++
        write_build_append sp ++
        [Line.txt (get_profile_generate_flags sp ++ "%configure " ++ sp.config.extra_configure64)]) ++
      write_make_line sp false none (some false) (some "configure") ++
      [Line.txt "\n"] ++
      write_profile_payload_content sp none ++
      [Line.txt "\nfind . -type f,l -name '*.gcno' -delete -print || :\n"] ++
      popdSubdir sp
    else
      [Line.txt "\necho PGO Phase 2\n"] ++
      (if truL sp.config.configure_mac_pgo then
        pushdSubdir sp ++
        [Line.txt (get_profile_use_flags sp)] ++
        write_build_append sp ++
        usrs sp.config.configure_mac_pgo
      else
        pushdSubdir sp ++
        write_build_append sp ++
        [Line.txt (get_profile_use_flags sp ++ "%configure " ++ sp.config.extra_configure_pgo)]) ++
      write_make_line sp false none (some true) (some "configure") ++
      [Line.txt "\n"] ++
      popdSubdir sp)
  else
    (if truL sp.config.configure_mac then
      pushdSubdir sp ++
      write_build_append sp ++
      usrs sp.config.configure_mac ++
      write_make_line sp false none (some false) (some "configure") ++
      popdSubdir sp ++ [Line.txt "\n"]
    else
      pushdSubdir sp ++
      write_build_append sp ++
      [Line.txt ("%configure " ++ sp.config.extra_configure ++ " " ++ sp.config.extra_configure64)] ++
      write_make_line sp false none (some false) (some "configure") ++
      popdSubdir sp ++ [Line.txt "\n"])

/-- `write_configure_pattern`, `build_special` block body (2069-2166).
In the externally-phased branch the source never emits the closing `popd`
for the opening `pushd ../build-special/`. -/
def confSpecialBlock (sp : Spec) : List Line :=
  [Line.txt "pushd ../build-special/"] ++
  write_build_prepend sp ++
  write_variables sp (some "special") ++
  (if confInproc sp then
    write_profile_payload sp (some "configure") (some "special") ++
    (if truL sp.config.configure_mac_special_pgo then
      pushdSubdir sp ++
      [Line.txt (get_profile_use_flags sp)] ++
      write_build_append sp ++
      usrs sp.config.configure_mac_special_pgo ++
      write_make_line sp false (some "special") (some true) none ++
      popdSubdir sp ++ [Line.txt "popd\n"]
    else if truL sp.config.configure_mac_special then
      pushdSubdir sp ++
      [Line.txt (get_profile_use_flags sp)] ++
      write_build_append sp ++
      usrs sp.config.configure_mac_special ++
      write_make_line sp false (some "special") (some true) none ++
      popdSubdir sp ++ [Line.txt "popd\n"]
    else
      pushdSubdir sp ++
      write_build_append sp ++
      [Line.txt (get_profile_use_flags sp ++ "%configure " ++ sp.config.extra_configure_special_pgo)] ++
      write_make_line sp false (some "special") (some true) none ++
      popdSubdir sp ++ [Line.txt "popd\n"])
  else if sp.config.altflags_pgo_ext ∧ ¬sp.config.altflags_pgo ∧ ¬sp.config.fsalt1 then
    (if ¬sp.config.altflags_pgo_ext_phase then
      [Line.txt "\necho PGO Phase 1\n"] ++
      (if truL sp.config.configure_mac_special then
        pushdSubdir sp ++
        [Line.txt (get_profile_generate_flags sp)] ++
        write_build_append sp ++
        usrs sp.config.configure_mac_special
      else
        pushdSubdir sp ++
        write_build_append sp ++
        [Line.txt (get_profile_generate_flags sp ++ "%configure " ++
          sp.config.extra_configure_special)]) ++
      write_make_line sp false (some "special") (some false) (some "configure") ++
      [Line.txt "\n"] ++
      write_profile_payload_content sp (some "special") ++
      [Line.txt "\nfind . -type f,l -name '*.gcno' -delete -print || :\n"] ++
      popdSubdir sp
    else
      [Line.txt "\necho PGO Phase 2\n"] ++
      (if truL sp.config.configure_mac_special_pgo then
        pushdSubdir sp ++
        [Line.txt (get_profile_use_flags sp)] ++
        write_build_append sp ++
        usrs sp.config.configure_mac_special_pgo
      else
        pushdSubdir sp ++
        write_build_append sp ++
        [Line.txt (get_profile_use_flags sp ++ "%configure " ++
          sp.config.extra_configure_special_pgo)]) ++
      write_make_line sp false (some "special") (some true) (some "configure") ++
      [Line.txt "\n"] ++
      popdSubdir sp)
  else
    (if truL sp.config.configure_mac_special then
      pushdSubdir sp ++
      write_build_append sp ++
      usrs sp.config.configure_mac_special ++
      write_make_line sp false (some "special") (some false) none ++
      popdSubdir sp ++ [Line.txt "popd\n"]
    else
      pushdSubdir sp ++
      write_build_append sp ++
      [Line.txt ("%configure " ++ sp.config.extra_configure_special)] ++
      write_make_line sp false (some "special") (some false) none ++
      popdSubdir sp ++ [Line.txt "popd\n"]))

/-- `write_configure_pattern`, `build_special2` block body (2169-2221). -/
def confSpecial2Block (sp : Spec) : List Line :=
  [Line.txt ("pushd ../build-special2/" ++ sp.config.subdir)] ++
  write_build_prepend sp ++
  write_variables sp none ++
  (if confInproc sp then
    write_profile_payload sp (some "configure") (some "special2") ++
    (if truL sp.config.configure_mac_special2_pgo then
      pushdSubdir sp ++
      [Line.txt (get_profile_use_flags sp)] ++
      usrs sp.config.configure_mac_special2_pgo ++
      write_make_line sp false (some "special2") (some true) none ++
      popdSubdir sp ++ [Line.txt "popd\n"]
    else if truL sp.config.configure_mac_special2 then
      pushdSubdir sp ++
      [Line.txt (get_profile_use_flags sp)] ++
      usrs sp.config.configure_mac_special2 ++
      write_make_line sp false (some "special2") (some true) none ++
      popdSubdir sp ++ [Line.txt "popd\n"]
    else
      pushdSubdir sp ++
      [Line.txt (get_profile_use_flags sp ++ "%configure " ++
        sp.config.extra_configure_special2_pgo)] ++
      write_make_line sp false (some "special2") (some true) none ++
      popdSubdir sp ++ [Line.txt "popd\n"])
  else
    (if truL sp.config.configure_mac_special2 then
      pushdSubdir sp ++
      [Line.txt (get_profile_use_flags sp)] ++
      usrs sp.config.configure_mac_special2 ++
      write_make_line sp false (some "special2") (some false) none ++
      popdSubdir sp ++ [Line.txt "popd\n"]
    else
      pushdSubdir sp ++
      [Line.txt ("%configure " ++ sp.config.extra_configure_special2)] ++
      write_make_line sp false (some "special2") (some false) none ++
      popdSubdir sp ++ [Line.txt "popd\n"]))

/-- `write_configure_pattern`, 32-bit block body (2224-2258). -/
def conf32Block (sp : Spec) : List Line :=
  (if truL sp.config.configure_mac_32 then
    [Line.txt ("pushd ../build32/" ++ sp.config.subdir)] ++
    write_build_prepend32 sp ++
    write_32bit_exports sp ++
    write_build_append sp ++
    usrs sp.config.configure_mac_32 ++
    write_make_line sp true none (some false) none ++
    [Line.txt "popd"]
  else
    [Line.txt ("pushd ../build32/" ++ sp.config.subdir)] ++
    write_build_prepend32 sp ++
    write_32bit_exports sp ++
    write_build_append sp ++
    [Line.txt ("%configure " ++ sp.config.extra_configure ++ " " ++ sp.config.extra_configure32 ++
      " --libdir=/usr/lib32 --build=i686-generic-linux-gnu --host=i686-generic-linux-gnu --target=i686-clr-linux-gnu")] ++
    write_make_line sp true none (some false) none ++
    [Line.txt "popd"]) ++
  (if sp.config.build_special_32 then
    [Line.txt ("pushd ../build-special-32/" ++ sp.config.subdir)] ++
    write_build_prepend32 sp ++
    write_32bit_exports sp ++
    (if truL sp.config.configure_mac_special_32 then
      write_build_append sp ++
      usrs sp.config.configure_mac_special_32 ++
      write_make_line sp true none (some false) none ++
      [Line.txt "popd\n"]
    else
      write_build_append sp ++
      (if tru sp.config.extra_configure_special_32 then
        [Line.txt ("%configure " ++ sp.config.extra_configure_special_32 ++
          " --libdir=/usr/lib32 --build=i686-generic-linux-gnu --host=i686-generic-linux-gnu --target=i686-clr-linux-gnu")]
      else
        [Line.txt ("%configure " ++ sp.config.extra_configure32 ++
          " --libdir=/usr/lib32 --build=i686-generic-linux-gnu --host=i686-generic-linux-gnu --target=i686-clr-linux-gnu")]) ++
      write_make_line sp true none (some false) none ++
      [Line.txt "popd\n"])
  else [])

/-- `write_configure_pattern`, avx2 block body (2261-2271). -/
def confAvx2Block (sp : Spec) : List Line :=
  [Line.txt "unset PKG_CONFIG_PATH",
   Line.txt ("pushd ../buildavx2/" ++ sp.config.subdir)] ++
  write_build_prepend sp ++
  [Line.txt "export CFLAGS=\"$CFLAGS -m64 -march=native -mtune=native\"",
   Line.txt "export CXXFLAGS=\"$CXXFLAGS -m64 -march=native -mtune=native\"",
   Line.txt "export FFLAGS=\"$FFLAGS -m64 -march=native -mtune=native\"",
   Line.txt "export FCFLAGS=\"$FCFLAGS -m64 -march=native -mtune=native\"",
   Line.txt "export LDFLAGS=\"$LDFLAGS -m64 -march=native -mtune=native\"",
   Line.txt ("%configure " ++ sp.config.extra_configure ++ " " ++
     sp.config.extra_configure_avx2 ++ " ")] ++
  write_make_line sp false none none none ++
  [Line.txt "popd"]

/-- `write_configure_pattern`, avx512 block body (2274-2284). -/
def confAvx512Block (sp : Spec) : List Line :=
  [Line.txt "unset PKG_CONFIG_PATH",
   Line.txt ("pushd ../buildavx512/" ++ sp.config.subdir)] ++
  write_build_prepend sp ++
  [Line.txt "export CFLAGS=\"$CFLAGS -m64 -march=skylake-avx512 -mprefer-vector-width=256\"",
   Line.txt "export CXXFLAGS=\"$CXXFLAGS -m64 -march=skylake-avx512 -mprefer-vector-width=256\"",
   Line.txt "export FFLAGS=\"$FFLAGS -m64 -march=skylake-avx512 -mprefer-vector-width=256\"",
   Line.txt "export FCFLAGS=\"$FCFLAGS -m64 -march=skylake-avx512 -mprefer-vector-width=256\"",
   Line.txt "export LDFLAGS=\"$LDFLAGS -m64 -march=skylake-avx512\"",
   Line.txt ("%configure " ++ sp.config.extra_configure ++ " " ++
     sp.config.extra_configure_avx512 ++ " ")] ++
  write_make_line sp false none none none ++
  [Line.txt "popd"]

/-- `write_configure_pattern`, openmpi block body (2287-2310). -/
def confOpenmpiBlock (sp : Spec) : List Line :=
  if truL sp.config.configure_mac_openmpi then
    [Line.txt ("pushd ../build-openmpi/" ++ sp.config.subdir),
     Line.txt ". /usr/share/defaults/etc/profile.d/modules.sh",
     Line.txt "module load openmpi"] ++
    write_build_prepend sp ++
    usrs sp.config.configure_mac_openmpi ++
    write_make_line sp false none none none ++
    [Line.txt "module unload openmpi", Line.txt "popd"]
  else
    [Line.txt ("pushd ../build-openmpi/" ++ sp.config.subdir),
     Line.txt ". /usr/share/defaults/etc/profile.d/modules.sh",
     Line.txt "module load openmpi"] ++
    write_build_prepend sp ++
    [Line.txt "export CFLAGS=\"$CFLAGS -m64 -march=native -mtune=native\"",
     Line.txt "export CXXFLAGS=\"$CXXFLAGS -m64 -march=native -mtune=native\"",
     Line.txt "export FCFLAGS=\"$FCFLAGS -m64 -march=native -mtune=native\"",
     Line.txt "export FFLAGS=\"$FFLAGS -m64 -march=native -mtune=native\"",
     Line.txt "export LDFLAGS=\"$LDFLAGS -m64 -march=native -mtune=native\"",
     Line.txt ("./configure " ++ sp.config.conf_args_openmpi ++ " \\\n" ++
       sp.config.extra_configure_openmpi ++ " ")] ++
    write_make_line sp false none none none ++
    [Line.txt "module unload openmpi", Line.txt "popd"]

/-- `write_configure_pattern` (1967-2313) on its non-`autoreconf` path (the
`autoreconf` branch at 1969-1972 delegates to `write_configure_ac_pattern`
and is not modelled); `write_prep` is delegated to the out-of-scope `%prep`
machinery.  `t` is the wall-clock second used for the `SOURCE_DATE_EPOCH`
exports of both `write_lang_c` and `write_make_install`. -/
def write_configure_pattern_build (sp : Spec) (t : Nat) : List Line :=
  write_lang_c sp true t ++
  write_build_prepend sp ++
  write_variables sp none ++
  confDefaultBlock sp ++
  (if sp.config.build_special then confSpecialBlock sp else []) ++
  (if sp.config.build_special2 then confSpecial2Block sp else []) ++
  (if sp.config.o32bit then conf32Block sp else []) ++
  (if sp.config.use_avx2 then confAvx2Block sp else []) ++
  (if sp.config.use_avx512 then confAvx512Block sp else []) ++
  (if sp.config.openmpi then confOpenmpiBlock sp else []) ++
  [Line.txt "\n"] ++
  write_check sp ++
  write_make_install sp t

/-- `write_meson_pattern`, lines 3895-3935: the branch taken when neither
in-process PGO (`profile_payload and altflags_pgo and not fsalt1`, 3468) nor
externally-phased PGO (`altflags_pgo_ext and not altflags_pgo and not
fsalt1`, 3683) applies — the plain 64-bit meson build, the avx2/avx512
block, the 32-bit block, and the closing `write_build_append`.  Note the
avx2/avx512 block (3913-3922) never pushes into `subdir` yet pops it
(3921-3922) when `subdir` and both avx flags are set. -/
def write_meson_build_tail (sp : Spec) : List Line :=
  write_variables sp none ++
  pushdSubdir sp ++
  [Line.txt ("CFLAGS=\"$CFLAGS\" CXXFLAGS=\"$CXXFLAGS\" LDFLAGS=\"$LDFLAGS\" LIBS=\"$LIBS\" meson --libdir=lib64 --sysconfdir=/usr/share --prefix=/usr --buildtype=plain -Ddefault_library=both " ++
    sp.config.extra_configure ++ " " ++ sp.config.extra_configure64 ++ " builddir")] ++
  write_trystatic sp ++
  write_make_prepend sp false ++
  (if truL sp.config.make_mac then
    mblock "## make_macro start" "## make_macro end" sp.config.make_mac
  else
    [Line.txt "ninja --verbose %{?_smp_mflags} -C builddir\n\n", Line.txt "\n"]) ++
  popdSubdir sp ++
  (if sp.config.use_avx2 then
    [Line.txt ("CFLAGS=\"$CFLAGS -m64 -march=native -mtune=native\" CXXFLAGS=\"$CXXFLAGS -m64 -march=native -mtune=native\" LDFLAGS=\"$LDFLAGS LIBS=\"$LIBS\" -m64 -march=native -mtune=native\" meson --libdir=lib64/haswell --sysconfdir=/usr/share --prefix=/usr --buildtype=plain -Ddefault_library=both " ++
      sp.config.extra_configure ++ " " ++ sp.config.extra_configure64 ++ " builddiravx2")] ++
    write_trystatic sp ++
    write_make_prepend sp false ++
    [Line.txt "ninja --verbose %{?_smp_mflags} -C builddiravx2\n\n"] ++
    (if sp.config.use_avx512 then
      [Line.txt ("CFLAGS=\"$CFLAGS -m64 -march=skylake-avx512\" CXXFLAGS=\"$CXXFLAGS -m64 -march=skylake-avx512\" LDFLAGS=\"$LDFLAGS LIBS=\"$LIBS\" -m64 -march=skylake-avx512\" meson --libdir=lib64/haswell/avx512_1 --sysconfdir=/usr/share --prefix=/usr --buildtype=plain " ++
        sp.config.extra_configure ++ " " ++ sp.config.extra_configure64 ++ " builddiravx512"),
       Line.txt "ninja -v -C builddiravx512\n\n"] ++
      popdSubdir sp
    else [])
  else []) ++
  (if sp.config.o32bit then
    [Line.txt ("pushd ../build32/" ++ sp.config.subdir)] ++
    write_build_prepend32 sp ++
    write_32bit_exports sp ++
    write_build_append sp ++
    [Line.txt ("CFLAGS=\"$CFLAGS\" CXXFLAGS=\"$CXXFLAGS\" LDFLAGS=\"$LDFLAGS\" LIBS=\"$LIBS\" meson --libdir=lib32 --sysconfdir=/usr/share --prefix=/usr --buildtype=plain -Ddefault_library=both " ++
      sp.config.extra_configure ++ " " ++ sp.config.extra_configure32 ++ " builddir")] ++
    write_trystatic sp ++
    write_make_prepend sp true ++
    [Line.txt "ninja --verbose %{?_smp_mflags} -C builddir\n\n"] ++
    [Line.txt "popd"]
  else []) ++
  write_build_append sp ++
  [Line.txt "\n"]

/-- Python's `\w` character class, over the ASCII names that occur in RPM
directives. -/
def isWordChar (c : Char) : Bool := c.isAlphanum || c = '_'

/-- Python's `\s` character class (space, tab, newline, carriage return,
vertical tab, form feed). -/
def isSpaceChar (c : Char) : Bool :=
  c = ' ' || c = '\t' || c = '\n' || c = '\r' || c = '\x0b' || c = '\x0c'

/-- The `(%\w+(\([^\)]*\))?\s+)(.*)` match of `quote_filename` (4423-4429):
returns `(group 1, group 3)` when the directive regex matches at the start
of the filename, `none` otherwise.  Greedy matching of `\w+`, `[^\)]*` and
`\s+` is deterministic here because the classes are disjoint from what
follows; `(.*)` stops at a newline. -/
def directiveSplit (l : List Char) : Option (List Char × List Char) :=
  match l with
  | [] => none
  | c :: r0 =>
    if c = '%' then
      if (r0.takeWhile isWordChar).isEmpty then none
      else if (r0.dropWhile isWordChar).head? = some '(' then
        (if (((r0.dropWhile isWordChar).tail).dropWhile (fun x => x ≠ ')')).head? = some ')' then
          (if ((((r0.dropWhile isWordChar).tail).dropWhile (fun x => x ≠ ')')).tail.takeWhile
              isSpaceChar).isEmpty then none
           else some ('%' :: r0.takeWhile isWordChar ++
               '(' :: ((r0.dropWhile isWordChar).tail).takeWhile (fun x => x ≠ ')') ++
               ')' :: ((((r0.dropWhile isWordChar).tail).dropWhile (fun x => x ≠ ')')).tail.takeWhile
                 isSpaceChar),
             (((((r0.dropWhile isWordChar).tail).dropWhile (fun x => x ≠ ')')).tail.dropWhile
               isSpaceChar).takeWhile (fun x => x ≠ '\n'))))
         else none)
      else
        if ((r0.dropWhile isWordChar).takeWhile isSpaceChar).isEmpty then none
        else some ('%' :: r0.takeWhile isWordChar ++ (r0.dropWhile isWordChar).takeWhile isSpaceChar,
          (((r0.dropWhile isWordChar).dropWhile isSpaceChar).takeWhile (fun x => x ≠ '\n')))
    else none

/-- The special characters `quote_filename` quotes for (4418). -/
def hasSpecialChar (l : List Char) : Bool := l.any (fun c => c = ' ' || c = '\t')

/-- `quote_filename` (4414-4438): split off any RPM directive prefix, then
wrap the remaining filename in double quotes iff it contains a space or a
tab. -/
def quote_filename (f : String) : String :=
  match directiveSplit f.data with
  | some (g1, g3) =>
    String.mk g1 ++ (if hasSpecialChar g3 then "\"" ++ String.mk g3 ++ "\"" else String.mk g3)
  | none =>
    if hasSpecialChar f.data then "\"" ++ f ++ "\"" else f

/-- `save_mock_logs` (autospec.py 118-132): the rename list archiving one
round's sandbox logs under round-numbered names. -/
def save_mock_logs (iteration : Nat) : List (String × String) :=
  ["build", "root", "srpm-build", "srpm-root", "mock_srpm", "mock_build"].map
    (fun log => (log ++ ".log", "round" ++ toString iteration ++ "-" ++ log ++ ".log"))

/-- What one sandboxed-build invocation reports back to the driver for a
given round number: the build's success flag and the value of
`package.must_restart` after the round (including any increment from
`filemanager.clean_directories`). -/
structure RoundOutcome where
  success : Bool
  mustRestart : Nat

/-- The observable trace of one driver run: the exit-time round counter and
success flag, the list of round numbers for which a sandboxed build ran, and
the list of round numbers whose logs were archived by `save_mock_logs`. -/
structure DriverResult where
  finalRound : Nat
  finalSuccess : Bool
  builds : List Nat
  archived : List Nat
deriving DecidableEq, Repr

/-- The convergence loop of `package` (autospec.py 547-562):

```
while 1:
    package.package(...)                 # runs round r+1
    ...
    if package.round > 20 or package.must_restart == 0:
        break
    save_mock_logs(conf.download_path, package.round)
```

Modelled from the spec: `build.Build.package` lives in `build.py`, which is
not under `src/`; per the specification's Convergence Driver contract it
increments the `round` counter by one per invocation and reports a
`(success, must_restart)` outcome, abstracted here as the `outcome`
function.  `fuel` is a recursion bound only; the loop's own `round > 20`
guard exits long before any adequate fuel runs out. -/
def package_loop (outcome : Nat → RoundOutcome) : Nat → Nat → DriverResult
  | 0, r => ⟨r, false, [], []⟩
  | fuel + 1, r =>
    let r' := r + 1
    let o := outcome r'
    if r' > 20 ∨ o.mustRestart = 0 then
      ⟨r', o.success, [r'], []⟩
    else
      let rest := package_loop outcome fuel r'
      ⟨rest.finalRound, rest.finalSuccess, r' :: rest.builds, r' :: rest.archived⟩

/-- A sandboxed-build stub that always reports `must_restart = 1` and a
failed build. -/
def stubOutcome : Nat → RoundOutcome := fun _ => ⟨false, 1⟩

/-! ## Derived observers and sample configurations used by the theorems -/

def keepLine : Line → Bool
  | Line.epoch _ => false
  | _ => true

def eraseEpochs (l : List Line) : List Line := l.filter keepLine

def spC1 : Spec := { config := { o32bit_only := true } }

def spMeson : Spec := { config := { subdir := "src", use_avx2 := true, use_avx512 := true } }

inductive VTag where
  | d64 | spc | avx2 | avx512 | mpi | b32
deriving DecidableEq, Repr

def cmakeTag : Line → Option VTag
  | Line.txt s =>
    if s = "mkdir -p clr-build" then some VTag.d64
    else if s = "mkdir -p clr-build-special" then some VTag.spc
    else if s = "mkdir -p clr-build-avx2" then some VTag.avx2
    else if s = "mkdir -p clr-build-avx512" then some VTag.avx512
    else if s = "mkdir -p clr-build-openmpi" then some VTag.mpi
    else if s = "mkdir -p clr-build32" then some VTag.b32
    else none
  | _ => none

def mkOrderCfg (bsp bavx2 bavx512 bmpi b32 b32only : Bool) : Spec :=
  { config := { build_special := bsp, use_avx2 := bavx2, use_avx512 := bavx512,
                openmpi := bmpi, o32bit := b32, o32bit_only := b32only } }

def spC3ce : Spec :=
  { config := { profile_payload := [""], altflags_pgo := true, altflags_pgo_ext := true } }

def mkC3 (pl e ep bs : Bool) : Spec :=
  { config := { profile_payload := if pl then ["w"] else [], altflags_pgo := true,
                altflags_pgo_ext := e, altflags_pgo_ext_phase := ep, build_special := bs } }

def NoPct (L : List Line) : Prop :=
  ∀ s : String, Line.txt s ∈ L → s.data[0]? ≠ some '%'

def spW6a : Spec := { config := { o32bit_only := true } }
def spW6b : Spec := {}
def spW8 : Spec := { config := { install_mac := ["inst"], cmake_mac := ["cm"] } }

/-- The four meson invocation lines of the embedded non-PGO meson tail, at
empty `extra_configure*` options (note the doubled separator spaces the
source's string interpolation produces). -/
def mesonD64line : String :=
  "CFLAGS=\"$CFLAGS\" CXXFLAGS=\"$CXXFLAGS\" LDFLAGS=\"$LDFLAGS\" LIBS=\"$LIBS\" meson --libdir=lib64 --sysconfdir=/usr/share --prefix=/usr --buildtype=plain -Ddefault_library=both " ++ "" ++ " " ++ "" ++ " builddir"

def mesonAvx2line : String :=
  "CFLAGS=\"$CFLAGS -m64 -march=native -mtune=native\" CXXFLAGS=\"$CXXFLAGS -m64 -march=native -mtune=native\" LDFLAGS=\"$LDFLAGS LIBS=\"$LIBS\" -m64 -march=native -mtune=native\" meson --libdir=lib64/haswell --sysconfdir=/usr/share --prefix=/usr --buildtype=plain -Ddefault_library=both " ++ "" ++ " " ++ "" ++ " builddiravx2"

def mesonAvx512line : String :=
  "CFLAGS=\"$CFLAGS -m64 -march=skylake-avx512\" CXXFLAGS=\"$CXXFLAGS -m64 -march=skylake-avx512\" LDFLAGS=\"$LDFLAGS LIBS=\"$LIBS\" -m64 -march=skylake-avx512\" meson --libdir=lib64/haswell/avx512_1 --sysconfdir=/usr/share --prefix=/usr --buildtype=plain " ++ "" ++ " " ++ "" ++ " builddiravx512"

def meson32line : String :=
  "CFLAGS=\"$CFLAGS\" CXXFLAGS=\"$CXXFLAGS\" LDFLAGS=\"$LDFLAGS\" LIBS=\"$LIBS\" meson --libdir=lib32 --sysconfdir=/usr/share --prefix=/usr --buildtype=plain -Ddefault_library=both " ++ "" ++ " " ++ "" ++ " builddir"

/-- Tag the per-variant meson invocations in a directive stream. -/
def mesonTag : Line → Option VTag
  | Line.txt s =>
    if s = mesonD64line then some VTag.d64
    else if s = mesonAvx2line then some VTag.avx2
    else if s = mesonAvx512line then some VTag.avx512
    else if s = meson32line then some VTag.b32
    else none
  | _ => none

/-- A configuration with an in-process two-phase PGO setup: a profiling
workload is supplied and `altflags_pgo` is set. -/
def spW3 : Spec := { config := { profile_payload := ["./workload"], altflags_pgo := true } }

/-- The tie-break family: an in-process two-phase PGO configuration with the
externally-phased flag also set (`e = true`) or not. -/
def mkC4 (e : Bool) : Spec :=
  { config := { profile_payload := ["w"], altflags_pgo := true, altflags_pgo_ext := e } }

/-- The tie-break configuration itself: in-process PGO with
`altflags_pgo_ext` also set. -/
def spC4ce : Spec := mkC4 true

/-! ## Proof toolkit: string-shape inequalities and stream membership -/

set_option maxRecDepth 100000
set_option maxHeartbeats 2000000

/-! ## Proof toolkit: string-shape inequalities and stream membership -/

/-- Associativity of string append, via the underlying character lists. -/
theorem str_assoc (a b c : String) : a ++ b ++ c = a ++ (b ++ c) := by
  rw [String.ext_iff]
  simp [String.data_append, List.append_assoc]

/-- `getElem?` on an appended string, within the left part. -/
theorem getElem_cat (p s : String) (i : Nat) (hi : i < p.data.length) :
    (p ++ s).data[i]? = p.data[i]? := by
  rw [String.data_append, List.getElem?_append, if_pos hi]

/-- The left part of an append bounds its length from below. -/
theorem len_le_cat (p s : String) : p.data.length ≤ (p ++ s).data.length := by
  rw [String.data_append, List.length_append]
  exact Nat.le_add_right _ _

/-- A constant differs from `p ++ s` whenever they differ at an index inside
`p`, whatever `s` is. -/
theorem const_ne_cat (c p s : String) (i : Nat) (hi : i < p.data.length)
    (h : c.data[i]? ≠ p.data[i]?) : c ≠ p ++ s :=
  fun e => h (by rw [e, getElem_cat _ _ i hi])

/-- Two appends differ whenever their constant left parts differ at a common
index. -/
theorem cat_ne_cat (p s q t : String) (i : Nat) (hp : i < p.data.length)
    (hq : i < q.data.length) (h : p.data[i]? ≠ q.data[i]?) : p ++ s ≠ q ++ t :=
  fun e => h (by rw [← getElem_cat p s i hp, ← getElem_cat q t i hq, e])

/-- An append differs from a constant (symmetric form of `const_ne_cat`). -/
theorem cat_ne_const (p s c : String) (i : Nat) (hi : i < p.data.length)
    (h : c.data[i]? ≠ p.data[i]?) : p ++ s ≠ c :=
  (const_ne_cat c p s i hi h).symm

theorem nm_nil (x : Line) : x ∉ ([] : List Line) := List.not_mem_nil x

theorem nm_app {x : Line} {l₁ l₂ : List Line} (h₁ : x ∉ l₁) (h₂ : x ∉ l₂) :
    x ∉ l₁ ++ l₂ :=
  fun h => (List.mem_append.mp h).elim h₁ h₂

theorem nm_ite {c : Prop} [Decidable c] {x : Line} {l₁ l₂ : List Line}
    (h₁ : x ∉ l₁) (h₂ : x ∉ l₂) : x ∉ (if c then l₁ else l₂) := by
  split <;> assumption

theorem nm_cons {x y : Line} {l : List Line} (h : x ≠ y) (h₂ : x ∉ l) :
    x ∉ y :: l :=
  fun hm => (List.mem_cons.mp hm).elim h h₂

/-- An engine `txt` line never occurs among echoed configuration lines. -/
theorem nm_usrs {s : String} {l : List String} : Line.txt s ∉ usrs l := by
  induction l with
  | nil => exact nm_nil _
  | cons a l ih => exact nm_cons (by simp) ih

/-- A `txt` line differing from both markers never occurs in an `mblock`. -/
theorem nm_mblock {s a b : String} {l : List String} (h₁ : s ≠ a) (h₂ : s ≠ b) :
    Line.txt s ∉ mblock a b l := by
  unfold mblock
  split
  · exact nm_nil _
  · exact nm_cons (by simp [h₁]) (nm_app nm_usrs (nm_cons (by simp [h₂]) (nm_nil _)))

theorem nm_map {α : Type} {x : Line} {f : α → Line} {l : List α}
    (h : ∀ a, x ≠ f a) : x ∉ List.map f l := by
  induction l with
  | nil => exact nm_nil _
  | cons a l ih => exact nm_cons (h a) ih

/-- Claim C1 counterexample: the same configuration at wall-clock seconds 0 and 1 renders different `%install` bytes, refuting byte-identical re-synthesis. -/
theorem claim_C1_counterexample :
    (write_make_install spC1 0).map render ≠ (write_make_install spC1 1).map render := by decide

/-- Claim C7 (code bug): in the embedded meson tail with `subdir = \"src\"` and both AVX flags set, one enter-subdirectory `pushd` faces two `popd`s - the avx2/avx512 block (specfiles.py 3913-3922) pops a directory it never pushed, so enters and leaves do not pair 1:1. -/
theorem claim_C7 :
    ((write_meson_build_tail spMeson).filter
        (fun l => l == Line.txt ("pushd " ++ spMeson.config.subdir))).length = 1 ∧
    ((write_meson_build_tail spMeson).filter (fun l => l == Line.txt "popd")).length = 2 := by
  decide

/-- Claim C5 counterexample: with only the 32-bit variant enabled, the cmake stream emits Default64 first and the 32-bit block last - the opposite of the claimed order. -/
theorem claim_C5_counterexample :
    (write_cmake_pattern_build (mkOrderCfg false false false false true false) 0).filterMap cmakeTag
      = [VTag.d64, VTag.b32] := by decide

set_option maxHeartbeats 1000000 in
theorem cmake_variant_order (bsp bavx2 bavx512 bmpi b32 b32only : Bool) :
    (write_cmake_pattern_build (mkOrderCfg bsp bavx2 bavx512 bmpi b32 b32only) 0).filterMap cmakeTag =
      (if b32only then [] else
        [VTag.d64] ++ (if bsp then [VTag.spc] else []) ++ (if bavx2 then [VTag.avx2] else []) ++
        (if bavx512 then [VTag.avx512] else []) ++ (if bmpi then [VTag.mpi] else [])) ++
      (if b32 then [VTag.b32] else []) := by
  cases bsp <;> cases bavx2 <;> cases bavx512 <;> cases bmpi <;> cases b32 <;> cases b32only <;> decide

set_option maxRecDepth 10000 in
/-- Claim C3 counterexample: with `profile_payload = [\"\"]` (configured but first line empty), `altflags_pgo` set and `fsalt1` unset, the cmake composer does not emit the in-process two-phase wrapper. -/
theorem claim_C3_counterexample :
    truL spC3ce.config.profile_payload = true ∧
    spC3ce.config.altflags_pgo = true ∧
    spC3ce.config.fsalt1 = false ∧
    spC3ce.config.altflags_pgo_ext = true ∧
    spC3ce.config.o32bit_only = false ∧
    Line.txt "if [ ! -f statuspgo ]; then" ∉ write_cmake_pattern_build spC3ce 0 := by decide

theorem cmake_inproc_mem (sp : Spec) (t : Nat)
    (h1 : headTru sp.config.profile_payload = true)
    (h2 : sp.config.altflags_pgo = true)
    (h3 : sp.config.fsalt1 = false)
    (h4 : sp.config.o32bit_only = false) :
    Line.txt "if [ ! -f statuspgo ]; then" ∈ write_cmake_pattern_build sp t := by
  simp [write_cmake_pattern_build, cmakeDefault64, cmakeInproc, h1, h2, h3, h4]

theorem conf_inproc_mem (sp : Spec) (t : Nat)
    (h1 : truL sp.config.profile_payload = true)
    (h2 : sp.config.altflags_pgo = true)
    (h3 : sp.config.fsalt1 = false) :
    Line.txt "if [ ! -f statuspgo ]; then" ∈ write_configure_pattern_build sp t := by
  simp [write_configure_pattern_build, confDefaultBlock, confInproc, write_profile_payload,
    h1, h2, h3]

set_option maxHeartbeats 4000000 in
set_option maxRecDepth 100000 in
theorem cmake_ext_flags_ignored (pl e ep bs : Bool) :
    write_cmake_pattern_build (mkC3 pl e ep bs) 0 =
      write_cmake_pattern_build (mkC3 pl false false bs) 0 := by
  cases pl <;> cases e <;> cases ep <;> cases bs <;> decide

set_option maxRecDepth 10000 in
theorem cmakeDefault64_inproc (sp : Spec)
    (h1 : headTru sp.config.profile_payload = true)
    (h2 : sp.config.altflags_pgo = true)
    (h3 : sp.config.fsalt1 = false) :
    cmakeDefault64 sp =
      [Line.txt "mkdir -p clr-build", Line.txt "pushd clr-build"] ++
      write_build_prepend sp ++ write_variables sp none ++ write_build_append sp ++
      [Line.txt "if [ ! -f statuspgo ]; then", Line.txt "\necho PGO Phase 1\n",
       Line.txt generateFlagsStr] ++
      (if truL sp.config.cmake_mac then usrs sp.config.cmake_mac
       else [Line.txt ("%cmake " ++ sp.config.cmake_srcdir ++ " " ++ sp.extra_cmake ++ " " ++
         sp.extra_cmake_64)]) ++
      write_make_line sp false none none none ++
      [Line.txt "\n"] ++
      write_profile_payload_content sp none ++
      (if tru sp.config.custom_clean_pgo then [Line.txt (sp.config.custom_clean_pgo ++ "\n")]
       else [Line.txt "\nfind . -type f,l -not -name '*.gcno' -not -name 'statuspgo*' -delete -print"]) ++
      [Line.txt "echo USED > statuspgo", Line.txt "fi",
       Line.txt "if [ -f statuspgo ]; then", Line.txt "echo PGO Phase 2\n",
       Line.txt useFlagsStr] ++
      (if truL sp.config.cmake_mac_pgo then usrs sp.config.cmake_mac_pgo
       else if truL sp.config.cmake_mac then usrs sp.config.cmake_mac
       else if tru sp.config.extra_cmake_pgo then
         [Line.txt ("%cmake " ++ sp.config.cmake_srcdir ++ " " ++ sp.extra_cmake_pgo)]
       else []) ++
      write_make_line sp false none none none ++
      [Line.txt "fi", Line.txt "popd"] := by
  have hg : get_profile_generate_flags sp = generateFlagsStr := by
    simp [get_profile_generate_flags, h1, h2, h3]
  have hu : get_profile_use_flags sp = useFlagsStr := by
    simp [get_profile_use_flags, h1, h2, h3]
  have hgt : tru generateFlagsStr = true := rfl
  have hut : tru useFlagsStr = true := rfl
  simp [cmakeDefault64, cmakeInproc, h1, h2, h3, hg, hu, hgt, hut]

theorem ne_of_idx (i : Nat) {a b : String}
    (h : (a.data[i]? == b.data[i]?) = false) : a ≠ b := by
  intro e
  rw [e] at h
  simp at h

theorem nm_txtl {T c : String} {L : List Line} (h : T ≠ c) (h₂ : Line.txt T ∉ L) :
    Line.txt T ∉ Line.txt c :: L :=
  nm_cons (by simp [h]) h₂

theorem nm_txte {T : String} {t : Nat} {L : List Line} (h₂ : Line.txt T ∉ L) :
    Line.txt T ∉ Line.epoch t :: L :=
  nm_cons (by simp) h₂

theorem nm_txtr {T m : String} {L : List Line} (h₂ : Line.txt T ∉ L) :
    Line.txt T ∉ Line.err m :: L :=
  nm_cons (by simp) h₂

theorem NoPct_nil : NoPct [] := fun _ h => absurd h (List.not_mem_nil _)

theorem NoPct_append {L₁ L₂ : List Line} (h₁ : NoPct L₁) (h₂ : NoPct L₂) :
    NoPct (L₁ ++ L₂) := fun s hm =>
  (List.mem_append.mp hm).elim (h₁ s) (h₂ s)

theorem NoPct_ite {c : Prop} [Decidable c] {L₁ L₂ : List Line}
    (h₁ : NoPct L₁) (h₂ : NoPct L₂) : NoPct (if c then L₁ else L₂) := by
  split <;> assumption

theorem NoPct_usrs {l : List String} : NoPct (usrs l) := by
  intro s hm
  induction l with
  | nil => exact absurd hm (List.not_mem_nil _)
  | cons a l ih =>
    rcases List.mem_cons.mp hm with h | h
    · exact absurd h (by simp)
    · exact ih h

theorem NoPct_cons_txt {c : String} {L : List Line} (hc : c.data[0]? ≠ some '%')
    (h : NoPct L) : NoPct (Line.txt c :: L) := by
  intro s hm
  rcases List.mem_cons.mp hm with he | he
  · cases he; exact hc
  · exact h s he

theorem NoPct_cons_usr {u : String} {L : List Line} (h : NoPct L) :
    NoPct (Line.usr u :: L) := by
  intro s hm
  rcases List.mem_cons.mp hm with he | he
  · cases he
  · exact h s he

theorem NoPct_cons_epoch {t : Nat} {L : List Line} (h : NoPct L) :
    NoPct (Line.epoch t :: L) := by
  intro s hm
  rcases List.mem_cons.mp hm with he | he
  · cases he
  · exact h s he

theorem NoPct_cons_err {m : String} {L : List Line} (h : NoPct L) :
    NoPct (Line.err m :: L) := by
  intro s hm
  rcases List.mem_cons.mp hm with he | he
  · cases he
  · exact h s he

theorem NoPct_mblock {a b : String} {l : List String}
    (ha : a.data[0]? ≠ some '%') (hb : b.data[0]? ≠ some '%') :
    NoPct (mblock a b l) := by
  unfold mblock
  split
  · exact NoPct_nil
  · exact NoPct_cons_txt ha (NoPct_append NoPct_usrs (NoPct_cons_txt hb NoPct_nil))

theorem nm_of_NoPct {L : List Line} {T : String} (hT : T.data[0]? = some '%')
    (h : NoPct L) : Line.txt T ∉ L := fun hm => h T hm hT

theorem NoPct_payloadBlock {tag : String} {l : List String}
    (ht : ("## " ++ tag ++ " start").data[0]? ≠ some '%')
    (he : ("## " ++ tag ++ " end").data[0]? ≠ some '%') :
    NoPct (payloadBlock tag l) := by
  unfold payloadBlock
  exact NoPct_cons_txt ht (NoPct_cons_txt (ne_of_beq_false rfl)
    (NoPct_cons_txt (ne_of_beq_false rfl)
    (NoPct_append NoPct_usrs (NoPct_cons_txt (ne_of_beq_false rfl)
      (NoPct_cons_txt (ne_of_beq_false rfl)
      (NoPct_cons_txt he NoPct_nil))))))

theorem NoPct_write_variables (sp : Spec) (bt : Option String) :
    NoPct (write_variables sp bt) := by
  unfold write_variables
  repeat'
    first
    | exact NoPct_nil
    | exact NoPct_usrs
    | (apply NoPct_mblock <;> exact ne_of_beq_false rfl)
    | apply NoPct_append
    | apply NoPct_ite
    | (apply NoPct_cons_txt
       exact ne_of_beq_false rfl)

theorem NoPct_write_32bit_exports (sp : Spec) : NoPct (write_32bit_exports sp) := by
  unfold write_32bit_exports
  repeat'
    first
    | exact NoPct_nil
    | exact NoPct_usrs
    | apply NoPct_append
    | apply NoPct_ite
    | (apply NoPct_cons_txt
       exact ne_of_beq_false rfl)

theorem NoPct_write_install_prepend (sp : Spec) (bt : Option String) :
    NoPct (write_install_prepend sp bt) := by
  unfold write_install_prepend
  repeat'
    first
    | exact NoPct_nil
    | exact NoPct_usrs
    | apply NoPct_append
    | apply NoPct_ite
    | (apply NoPct_cons_txt
       exact ne_of_beq_false rfl)

theorem NoPct_write_build_prepend (sp : Spec) : NoPct (write_build_prepend sp) :=
  NoPct_mblock (ne_of_beq_false rfl) (ne_of_beq_false rfl)

theorem NoPct_write_build_append (sp : Spec) : NoPct (write_build_append sp) :=
  NoPct_mblock (ne_of_beq_false rfl) (ne_of_beq_false rfl)

theorem NoPct_write_license_files (sp : Spec) : NoPct (write_license_files sp) := by
  unfold write_license_files
  apply NoPct_ite
  · apply NoPct_cons_txt
    · exact ne_of_beq_false rfl
    · intro s hm
      rcases List.mem_map.mp hm with ⟨a, _, he⟩
      cases he
      exact ne_of_beq_false rfl
  · exact NoPct_nil

theorem NoPct_write_profile_payload_content (sp : Spec) (bt : Option String) :
    NoPct (write_profile_payload_content sp bt) := by
  unfold write_profile_payload_content
  repeat'
    first
    | exact NoPct_nil
    | (apply NoPct_payloadBlock <;> exact ne_of_beq_false rfl)
    | apply NoPct_ite

theorem NoPct_write_make_line (sp : Spec) (b : Bool) (bt : Option String)
    (pgo : Option Bool) (pat : Option String) :
    NoPct (write_make_line sp b bt pgo pat) := by
  unfold write_make_line
  repeat'
    first
    | exact NoPct_nil
    | exact NoPct_usrs
    | (apply NoPct_mblock <;> exact ne_of_beq_false rfl)
    | apply NoPct_append
    | apply NoPct_ite
    | apply NoPct_cons_err
    | (apply NoPct_cons_txt
       exact ne_of_beq_false rfl)

theorem NoPct_profile_flags_gen (sp : Spec) :
    (get_profile_generate_flags sp).data[0]? ≠ some '%' := by
  unfold get_profile_generate_flags
  split
  · exact ne_of_beq_false rfl
  · split
    · exact ne_of_beq_false rfl
    · exact ne_of_beq_false rfl

theorem NoPct_profile_flags_use (sp : Spec) :
    (get_profile_use_flags sp).data[0]? ≠ some '%' := by
  unfold get_profile_use_flags
  split
  · exact ne_of_beq_false rfl
  · split
    · exact ne_of_beq_false rfl
    · exact ne_of_beq_false rfl

theorem NoPct_wmiProfileFlags (sp : Spec) : NoPct (wmiProfileFlags sp) := by
  unfold wmiProfileFlags
  repeat'
    first
    | exact NoPct_nil
    | apply NoPct_ite
    | exact NoPct_cons_txt (NoPct_profile_flags_gen sp) NoPct_nil
    | exact NoPct_cons_txt (NoPct_profile_flags_use sp) NoPct_nil

theorem txt_ne {a b : String} (h : a ≠ b) : Line.txt a ≠ Line.txt b :=
  fun e => h (Line.txt.inj e)

theorem within_app_right {α : Type} {m L₂ : List α} (L₁ : List α) (h : m <:+: L₂) :
    m <:+: L₁ ++ L₂ := by
  obtain ⟨p, q, hp⟩ := h
  exact ⟨L₁ ++ p, q, by rw [← hp]; simp⟩

theorem within_app_left {α : Type} {m L₁ : List α} (L₂ : List α) (h : m <:+: L₁) :
    m <:+: L₁ ++ L₂ := by
  obtain ⟨p, q, hp⟩ := h
  exact ⟨p, q ++ L₂, by rw [← hp]; simp⟩

/-- A `txt` line whose text does not start with `e` and is nonempty differs
from the generate-phase flag export singleton. -/
theorem nm_fgen {T : String} {sp : Spec}
    (h0 : (T.data[0]? == some 'e') = false)
    (hn : (T.data[0]? == (none : Option Char)) = false) :
    Line.txt T ∉ [Line.txt (get_profile_generate_flags sp)] := by
  intro hm
  have hT : T = get_profile_generate_flags sp := Line.txt.inj (List.mem_singleton.mp hm)
  unfold get_profile_generate_flags at hT
  split at hT
  · have hg : (generateFlagsStr.data[0]? == some 'e') = true := rfl
    rw [hT] at h0
    exact absurd (hg.symm.trans h0) (by decide)
  · split at hT
    · have hg : (generateFlagsStr.data[0]? == some 'e') = true := rfl
      rw [hT] at h0
      exact absurd (hg.symm.trans h0) (by decide)
    · have hg : ((("" : String).data[0]?) == (none : Option Char)) = true := rfl
      rw [hT] at hn
      exact absurd (hg.symm.trans hn) (by decide)

theorem nm_fuse {T : String} {sp : Spec}
    (h0 : (T.data[0]? == some 'e') = false)
    (hn : (T.data[0]? == (none : Option Char)) = false) :
    Line.txt T ∉ [Line.txt (get_profile_use_flags sp)] := by
  intro hm
  have hT : T = get_profile_use_flags sp := Line.txt.inj (List.mem_singleton.mp hm)
  unfold get_profile_use_flags at hT
  split at hT
  · have hg : (useFlagsStr.data[0]? == some 'e') = true := rfl
    rw [hT] at h0
    exact absurd (hg.symm.trans h0) (by decide)
  · split at hT
    · have hg : (useFlagsStr.data[0]? == some 'e') = true := rfl
      rw [hT] at h0
      exact absurd (hg.symm.trans h0) (by decide)
    · have hg : ((("" : String).data[0]?) == (none : Option Char)) = true := rfl
      rw [hT] at hn
      exact absurd (hg.symm.trans hn) (by decide)

/-- `cmakeDefault64` with both PGO modes off is the plain build block. -/
theorem cmakeDefault64_plain (sp : Spec) (h2 : cmakeInproc sp = false)
    (h3 : cmakeExtCond sp = false) :
    cmakeDefault64 sp =
      [Line.txt "mkdir -p clr-build", Line.txt "pushd clr-build"] ++
      (write_build_prepend sp ++
       write_variables sp none ++
       write_build_append sp ++
       (if truL sp.config.cmake_mac then usrs sp.config.cmake_mac
        else [Line.txt ("%cmake " ++ sp.config.cmake_srcdir ++ " " ++ sp.extra_cmake ++ " " ++
          sp.extra_cmake_64)]) ++
       write_make_line sp false none none none ++
       [Line.txt "popd"]) := by
  unfold cmakeDefault64
  split
  · exact absurd ‹cmakeInproc sp = true› (by simp [h2])
  · split
    · exact absurd ‹cmakeExtCond sp = true› (by simp [h3])
    · rfl

/-- The default `%cmake` invocation never occurs in the plain cmake block when
the cmake override is supplied. -/
theorem nm_cmake_default (sp : Spec) (e : String) (h1 : truL sp.config.cmake_mac = true)
    (h2 : cmakeInproc sp = false) (h3 : cmakeExtCond sp = false) :
    Line.txt ("%cmake " ++ e) ∉ cmakeDefault64 sp := by
  rw [cmakeDefault64_plain sp h2 h3, if_pos h1]
  apply nm_app
  · refine nm_txtl ?_ (nm_txtl ?_ (nm_nil _)) <;> exact ne_of_idx 1 rfl
  · apply nm_app
    · apply nm_app
      · apply nm_app
        · apply nm_app
          · apply nm_app
            · exact nm_of_NoPct rfl (NoPct_write_build_prepend sp)
            · exact nm_of_NoPct rfl (NoPct_write_variables sp none)
          · exact nm_of_NoPct rfl (NoPct_write_build_append sp)
        · exact nm_usrs
      · exact nm_of_NoPct rfl (NoPct_write_make_line sp false none none none)
    · refine nm_txtl ?_ (nm_nil _)
      exact ne_of_idx 0 rfl

/-- The cmake override lines appear verbatim (contiguously) in the plain
cmake block. -/
theorem cmake_mac_verbatim (sp : Spec) (h1 : truL sp.config.cmake_mac = true)
    (h2 : cmakeInproc sp = false) (h3 : cmakeExtCond sp = false) :
    usrs sp.config.cmake_mac <:+: cmakeDefault64 sp := by
  rw [cmakeDefault64_plain sp h2 h3, if_pos h1]
  apply within_app_right
  apply within_app_left
  apply within_app_left
  apply within_app_right
  exact ⟨[], [], by simp⟩

/-- With an `install_macro` override supplied, no default `%make_install`
invocation appears anywhere in the `%install` stream. -/
theorem nm_minstall (sp : Spec) (t : Nat) (e : String)
    (hmac : truL sp.config.install_mac = true) :
    Line.txt ("%make_install " ++ e) ∉ write_make_install sp t := by
  unfold write_make_install wmiHeader wmiGated write_install_openmpi
  rw [if_pos hmac]
  repeat'
    first
    | exact nm_nil _
    | exact nm_usrs
    | exact nm_of_NoPct rfl (NoPct_write_license_files _)
    | exact nm_of_NoPct rfl (NoPct_write_32bit_exports _)
    | exact nm_of_NoPct rfl (NoPct_write_install_prepend _ _)
    | exact nm_of_NoPct rfl (NoPct_write_variables _ _)
    | exact nm_of_NoPct rfl (NoPct_wmiProfileFlags _)
    | apply nm_app
    | apply nm_ite
    | apply nm_txte
    | (apply nm_txtl
       first
       | exact ne_of_idx 0 rfl
       | exact ne_of_idx 1 rfl
       | exact cat_ne_cat _ _ _ _ 13 (by decide) (by decide) (by decide)
       | (rw [str_assoc]
          exact cat_ne_cat _ _ _ _ 13 (by decide) (by decide) (by decide)))

/-- With `32bit_only` set, the default 64-bit cmake build block (marked by its
`mkdir -p clr-build` setup line) is absent from the cmake `%build` stream. -/
theorem nm_mkdir64 (sp : Spec) (t : Nat) (h : sp.config.o32bit_only = true) :
    Line.txt "mkdir -p clr-build" ∉ write_cmake_pattern_build sp t := by
  unfold write_cmake_pattern_build write_lang_c write_proxy_exports cmake32Block
    write_32bit_exports write_make_line
  rw [if_neg (not_not_intro h)]
  repeat'
    first
    | exact nm_nil _
    | exact nm_usrs
    | (apply nm_mblock <;> exact ne_of_idx 0 rfl)
    | apply nm_app
    | apply nm_ite
    | apply nm_txte
    | apply nm_txtr
    | (apply nm_txtl
       first
       | exact ne_of_idx 0 rfl
       | exact ne_of_idx 1 rfl
       | exact ne_of_idx 18 rfl)

/-- Claim C6: the Default64 cmake build block (marked by its `mkdir -p clr-build` setup line) and the default install step are emitted unless `32bit_only` is set, in which case both are excluded from the streams. -/
theorem claim_C6 (sp : Spec) (t : Nat) :
    (sp.config.o32bit_only = true →
       Line.txt "mkdir -p clr-build" ∉ write_cmake_pattern_build sp t ∧
       write_make_install sp t = wmiHeader sp t) ∧
    (sp.config.o32bit_only = false →
       Line.txt "mkdir -p clr-build" ∈ write_cmake_pattern_build sp t ∧
       write_make_install sp t = wmiHeader sp t ++ wmiGated sp ∧
       (if truL sp.config.install_mac then Line.txt "## install_macro start"
        else Line.txt ("%make_install " ++ sp.config.extra_make_install ++ "\n")) ∈
          wmiGated sp) := by
  constructor
  · intro h
    refine ⟨nm_mkdir64 sp t h, ?_⟩
    simp [write_make_install, h]
  · intro h
    refine ⟨?_, ?_, ?_⟩
    · simp [write_cmake_pattern_build, cmakeDefault64, h]
    · simp [write_make_install, h]
    · cases hm : truL sp.config.install_mac <;> simp [wmiGated, hm]

/-- Claim C8: a supplied `install_macro`/`cmake_macro` override appears verbatim and contiguously in the emitted block for that step, and the pattern's default `%make_install`/`%cmake ...` invocation for that same step is absent whatever the extra arguments. -/
theorem claim_C8 (sp : Spec) (t : Nat) (e : String) :
    (truL sp.config.install_mac = true →
       Line.txt ("%make_install " ++ e) ∉ write_make_install sp t ∧
       (sp.config.o32bit_only = false →
          usrs sp.config.install_mac <:+: write_make_install sp t)) ∧
    (truL sp.config.cmake_mac = true → cmakeInproc sp = false → cmakeExtCond sp = false →
       Line.txt ("%cmake " ++ e) ∉ cmakeDefault64 sp ∧
       usrs sp.config.cmake_mac <:+: cmakeDefault64 sp) := by
  constructor
  · intro hmac
    refine ⟨nm_minstall sp t e hmac, ?_⟩
    intro h32
    unfold write_make_install
    rw [if_pos (by simp [h32])]
    apply within_app_right
    unfold wmiGated
    rw [if_pos hmac]
    apply within_app_left
    apply within_app_right
    apply within_app_left
    apply within_app_right
    exact ⟨[], [], by simp⟩
  · intro h1 h2 h3
    exact ⟨nm_cmake_default sp e h1 h2 h3, cmake_mac_verbatim sp h1 h2 h3⟩

/-- Witness for `claim_C6` at a `32bit_only` configuration and at the default configuration. -/
theorem claim_C6_witness :
    (Line.txt "mkdir -p clr-build" ∉ write_cmake_pattern_build spW6a 0 ∧
     write_make_install spW6a 0 = wmiHeader spW6a 0) ∧
    (Line.txt "mkdir -p clr-build" ∈ write_cmake_pattern_build spW6b 0 ∧
     write_make_install spW6b 0 = wmiHeader spW6b 0 ++ wmiGated spW6b ∧
     (if truL spW6b.config.install_mac then Line.txt "## install_macro start"
      else Line.txt ("%make_install " ++ spW6b.config.extra_make_install ++ "\n")) ∈
        wmiGated spW6b) :=
  ⟨(claim_C6 spW6a 0).1 rfl, (claim_C6 spW6b 0).2 rfl⟩

/-- Witness for `claim_C8` at a configuration supplying both overrides. -/
theorem claim_C8_witness :
    (Line.txt ("%make_install " ++ "extra") ∉ write_make_install spW8 0 ∧
     (spW8.config.o32bit_only = false →
        usrs spW8.config.install_mac <:+: write_make_install spW8 0)) ∧
    (Line.txt ("%cmake " ++ "extra") ∉ cmakeDefault64 spW8 ∧
     usrs spW8.config.cmake_mac <:+: cmakeDefault64 spW8) :=
  ⟨(claim_C8 spW8 0 "extra").1 rfl, (claim_C8 spW8 0 "extra").2 rfl rfl rfl⟩

/-- One loop step that exits: the guard holds after the round. -/
theorem package_loop_stop (outcome : Nat → RoundOutcome) (fuel r : Nat)
    (hc : r + 1 > 20 ∨ (outcome (r + 1)).mustRestart = 0) :
    package_loop outcome (fuel + 1) r = ⟨r + 1, (outcome (r + 1)).success, [r + 1], []⟩ := by
  simp only [package_loop]
  rw [if_pos hc]

/-- One loop step that continues: the guard fails, the logs are archived and
the loop recurses. -/
theorem package_loop_cont (outcome : Nat → RoundOutcome) (fuel r : Nat)
    (h1 : ¬r + 1 > 20) (h2 : (outcome (r + 1)).mustRestart ≠ 0) :
    package_loop outcome (fuel + 1) r =
      ⟨(package_loop outcome fuel (r + 1)).finalRound,
       (package_loop outcome fuel (r + 1)).finalSuccess,
       (r + 1) :: (package_loop outcome fuel (r + 1)).builds,
       (r + 1) :: (package_loop outcome fuel (r + 1)).archived⟩ := by
  simp only [package_loop]
  rw [if_neg (fun h => h.elim h1 h2)]

/-- Exit characterization of the convergence loop: with enough fuel, the loop
stops exactly when the round counter exceeds 20 or `must_restart` is zero, and
every earlier round satisfied neither condition. -/
theorem package_loop_exit (outcome : Nat → RoundOutcome) :
    ∀ fuel r, 20 < fuel + r →
      (20 < (package_loop outcome fuel r).finalRound ∨
        (outcome (package_loop outcome fuel r).finalRound).mustRestart = 0) ∧
      (∀ b ∈ (package_loop outcome fuel r).builds,
         b ≠ (package_loop outcome fuel r).finalRound →
           b ≤ 20 ∧ (outcome b).mustRestart ≠ 0)
  | 0, r, hf => by
    refine ⟨Or.inl ?_, ?_⟩
    · show 20 < r
      omega
    · intro b hb
      exact absurd hb (List.not_mem_nil b)
  | fuel + 1, r, hf => by
    by_cases hc : r + 1 > 20 ∨ (outcome (r + 1)).mustRestart = 0
    · rw [package_loop_stop outcome fuel r hc]
      refine ⟨hc, ?_⟩
      intro b hb hne
      have hb' : b = r + 1 := by simpa using hb
      exact absurd hb' (by simpa using hne)
    · push_neg at hc
      have IH := package_loop_exit outcome fuel (r + 1) (by omega)
      rw [package_loop_cont outcome fuel r (by omega) hc.2]
      refine ⟨IH.1, ?_⟩
      intro b hb hne
      have hb' : b = r + 1 ∨ b ∈ (package_loop outcome fuel (r + 1)).builds := by
        simpa using hb
      rcases hb' with rfl | hb'
      · exact ⟨by omega, hc.2⟩
      · exact IH.2 b hb' (by simpa using hne)

/-- With enough fuel, the archived rounds are exactly the non-final builds,
and the last build is the exit round. -/
theorem package_loop_archived (outcome : Nat → RoundOutcome) :
    ∀ fuel r, 20 < fuel + r →
      (package_loop outcome fuel r).archived =
        (package_loop outcome fuel r).builds.dropLast ∧
      ((package_loop outcome fuel r).builds ≠ [] →
        (package_loop outcome fuel r).builds.getLast? =
          some (package_loop outcome fuel r).finalRound) ∧
      ((package_loop outcome fuel r).builds = [] → 20 < r)
  | 0, r, hf => by
    refine ⟨rfl, ?_, fun _ => by omega⟩
    intro hb
    exact absurd rfl hb
  | fuel + 1, r, hf => by
    by_cases hc : r + 1 > 20 ∨ (outcome (r + 1)).mustRestart = 0
    · rw [package_loop_stop outcome fuel r hc]
      exact ⟨rfl, fun _ => rfl, fun hb => absurd hb (List.cons_ne_nil _ _)⟩
    · push_neg at hc
      have IH := package_loop_archived outcome fuel (r + 1) (by omega)
      have hbne : (package_loop outcome fuel (r + 1)).builds ≠ [] := by
        intro he
        exact absurd (IH.2.2 he) (by omega)
      rw [package_loop_cont outcome fuel r (by omega) hc.2]
      refine ⟨?_, fun _ => ?_, fun hb => absurd hb (List.cons_ne_nil _ _)⟩
      · show (r + 1) :: (package_loop outcome fuel (r + 1)).archived =
          ((r + 1) :: (package_loop outcome fuel (r + 1)).builds).dropLast
        cases hbb : (package_loop outcome fuel (r + 1)).builds with
        | nil => exact absurd hbb hbne
        | cons x xs =>
          have h1 := IH.1
          rw [hbb] at h1
          rw [List.dropLast_cons₂, ← h1]
      · show ((r + 1) :: (package_loop outcome fuel (r + 1)).builds).getLast? =
          some (package_loop outcome fuel (r + 1)).finalRound
        cases hbb : (package_loop outcome fuel (r + 1)).builds with
        | nil => exact absurd hbb hbne
        | cons x xs =>
          have h2 := IH.2.1 hbne
          rw [hbb] at h2
          rw [List.getLast?_cons_cons, h2]

/-- Claim C2: the convergence loop exits exactly when the round counter exceeds 20 or `must_restart` is 0 (every non-final build satisfied neither condition); under the always-restart stub it stops after round 21 with overall failure and round 22 never runs. -/
theorem claim_C2 (outcome : Nat → RoundOutcome) (fuel r : Nat) (hf : 20 < fuel + r) :
    (20 < (package_loop outcome fuel r).finalRound ∨
      (outcome (package_loop outcome fuel r).finalRound).mustRestart = 0) ∧
    (∀ b ∈ (package_loop outcome fuel r).builds,
       b ≠ (package_loop outcome fuel r).finalRound →
         b ≤ 20 ∧ (outcome b).mustRestart ≠ 0) ∧
    package_loop stubOutcome 30 0 = ⟨21, false, List.range' 1 21, List.range' 1 20⟩ ∧
    22 ∉ (package_loop stubOutcome 30 0).builds :=
  ⟨(package_loop_exit outcome fuel r hf).1, (package_loop_exit outcome fuel r hf).2,
   by decide, by decide⟩

/-- Witness for `claim_C2` at the always-restart stub with fuel 30 from round 0. -/
theorem claim_C2_witness :
    20 < 30 + 0 ∧
    ((20 < (package_loop stubOutcome 30 0).finalRound ∨
       (stubOutcome (package_loop stubOutcome 30 0).finalRound).mustRestart = 0) ∧
     (∀ b ∈ (package_loop stubOutcome 30 0).builds,
        b ≠ (package_loop stubOutcome 30 0).finalRound →
          b ≤ 20 ∧ (stubOutcome b).mustRestart ≠ 0) ∧
     package_loop stubOutcome 30 0 = ⟨21, false, List.range' 1 21, List.range' 1 20⟩ ∧
     22 ∉ (package_loop stubOutcome 30 0).builds) :=
  ⟨by decide, claim_C2 stubOutcome 30 0 (by decide)⟩

/-- Claim C9 (corrected): the archived rounds are exactly the non-final builds - `save_mock_logs` runs only when the loop continues, so the final round's logs are never archived under a round-numbered name. -/
theorem claim_C9 (outcome : Nat → RoundOutcome) (fuel r : Nat) (hf : 20 < fuel + r) :
    (package_loop outcome fuel r).archived =
      (package_loop outcome fuel r).builds.dropLast ∧
    ((package_loop outcome fuel r).builds ≠ [] →
      (package_loop outcome fuel r).builds.getLast? =
        some (package_loop outcome fuel r).finalRound) ∧
    save_mock_logs 7 =
      ["build", "root", "srpm-build", "srpm-root", "mock_srpm", "mock_build"].map
        (fun log => (log ++ ".log", "round7-" ++ log ++ ".log")) :=
  ⟨(package_loop_archived outcome fuel r hf).1, (package_loop_archived outcome fuel r hf).2.1,
   by decide⟩

/-- Claim C9 counterexample: under the always-restart stub, round 21 runs but its logs are never archived. -/
theorem claim_C9_counterexample :
    21 ∈ (package_loop stubOutcome 30 0).builds ∧
    21 ∉ (package_loop stubOutcome 30 0).archived := by decide

/-- Witness for `claim_C9` at the always-restart stub. -/
theorem claim_C9_witness :
    20 < 30 + 0 ∧
    ((package_loop stubOutcome 30 0).archived =
       (package_loop stubOutcome 30 0).builds.dropLast ∧
     ((package_loop stubOutcome 30 0).builds ≠ [] →
       (package_loop stubOutcome 30 0).builds.getLast? =
         some (package_loop stubOutcome 30 0).finalRound) ∧
     save_mock_logs 7 =
       ["build", "root", "srpm-build", "srpm-root", "mock_srpm", "mock_build"].map
         (fun log => (log ++ ".log", "round7-" ++ log ++ ".log"))) :=
  ⟨by decide, claim_C9 stubOutcome 30 0 (by decide)⟩

/-- Reconstruction for the plain (no-parenthesis) directive form. -/
theorem recon_plain (r0 : List Char) (hnl : '\n' ∉ r0) :
    ('%' :: r0.takeWhile isWordChar ++ (r0.dropWhile isWordChar).takeWhile isSpaceChar) ++
      (((r0.dropWhile isWordChar).dropWhile isSpaceChar).takeWhile (fun x => x ≠ '\n')) =
      '%' :: r0 := by
  have hg3 : ((r0.dropWhile isWordChar).dropWhile isSpaceChar).takeWhile (fun x => x ≠ '\n') =
      (r0.dropWhile isWordChar).dropWhile isSpaceChar := by
    rw [List.takeWhile_eq_self_iff]
    intro x hx
    simp only [ne_eq, decide_eq_true_eq]
    intro he
    refine hnl ?_
    have h1 : x ∈ r0.dropWhile isWordChar :=
      (List.dropWhile_sublist isSpaceChar).subset hx
    exact he ▸ (List.dropWhile_sublist isWordChar).subset h1
  simp only [List.cons_append, List.append_assoc, hg3, List.takeWhile_append_dropWhile]

/-- Reconstruction for the parenthesised directive form. -/
theorem recon_paren (r0 : List Char) (hnl : '\n' ∉ r0)
    (hpar : (r0.dropWhile isWordChar).head? = some '(')
    (hcl : (((r0.dropWhile isWordChar).tail).dropWhile (fun x => x ≠ ')')).head? = some ')') :
    ('%' :: r0.takeWhile isWordChar ++
       '(' :: ((r0.dropWhile isWordChar).tail).takeWhile (fun x => x ≠ ')') ++
       ')' :: ((((r0.dropWhile isWordChar).tail).dropWhile (fun x => x ≠ ')')).tail.takeWhile
         isSpaceChar)) ++
      (((((r0.dropWhile isWordChar).tail).dropWhile (fun x => x ≠ ')')).tail.dropWhile
        isSpaceChar).takeWhile (fun x => x ≠ '\n')) = '%' :: r0 := by
  cases hr1 : r0.dropWhile isWordChar with
  | nil =>
    rw [hr1] at hpar
    simp at hpar
  | cons a r2 =>
    rw [hr1] at hpar
    simp only [List.head?_cons, Option.some.injEq] at hpar
    subst hpar
    rw [hr1] at hcl
    simp only [List.tail_cons] at hcl ⊢
    have hnr2 : '\n' ∉ r2 := by
      intro hm
      refine hnl ?_
      have h1 : '\n' ∈ r0.dropWhile isWordChar := by
        rw [hr1]
        exact List.mem_cons_of_mem _ hm
      exact (List.dropWhile_sublist isWordChar).subset h1
    cases hdw : r2.dropWhile (fun x => x ≠ ')') with
    | nil =>
      rw [hdw] at hcl
      simp at hcl
    | cons b r3 =>
      rw [hdw] at hcl
      simp only [List.head?_cons, Option.some.injEq] at hcl
      subst hcl
      simp only [List.tail_cons]
      have hnr3 : '\n' ∉ r3 := by
        intro hm
        refine hnr2 ?_
        have h1 : '\n' ∈ r2.dropWhile (fun x => x ≠ ')') := by
          rw [hdw]
          exact List.mem_cons_of_mem _ hm
        exact (List.dropWhile_sublist (fun x => x ≠ ')')).subset h1
      have hg3 : (r3.dropWhile isSpaceChar).takeWhile (fun x => x ≠ '\n') =
          r3.dropWhile isSpaceChar := by
        rw [List.takeWhile_eq_self_iff]
        intro x hx
        simp only [ne_eq, decide_eq_true_eq]
        intro he
        exact hnr3 (he ▸ (List.dropWhile_sublist isSpaceChar).subset hx)
      simp only [List.cons_append, List.append_assoc, hg3]
      rw [List.takeWhile_append_dropWhile]
      rw [← hdw]
      rw [List.takeWhile_append_dropWhile]
      rw [← hr1]
      rw [List.takeWhile_append_dropWhile]

/-- Whatever `directiveSplit` splits off reassembles to the original
newline-free input: nothing is lost or reordered. -/
theorem directiveSplit_eq (l : List Char) (hnl : '\n' ∉ l) (g1 g3 : List Char)
    (h : directiveSplit l = some (g1, g3)) : l = g1 ++ g3 := by
  cases l with
  | nil => simp [directiveSplit] at h
  | cons c r0 =>
    by_cases hc : c = '%'
    · subst hc
      have hnl0 : '\n' ∉ r0 := fun hm => hnl (List.mem_cons_of_mem _ hm)
      by_cases hw : (r0.takeWhile isWordChar).isEmpty
      · have he : directiveSplit ('%' :: r0) = none := by
          simp only [directiveSplit, if_true]
          rw [if_pos hw]
        rw [he] at h
        exact Option.noConfusion h
      · by_cases hpar : (r0.dropWhile isWordChar).head? = some '('
        · by_cases hcl :
            (((r0.dropWhile isWordChar).tail).dropWhile (fun x => x ≠ ')')).head? = some ')'
          · by_cases hws : ((((r0.dropWhile isWordChar).tail).dropWhile
                (fun x => x ≠ ')')).tail.takeWhile isSpaceChar).isEmpty
            · have he : directiveSplit ('%' :: r0) = none := by
                simp only [directiveSplit, if_true]
                rw [if_neg hw, if_pos hpar, if_pos hcl, if_pos hws]
              rw [he] at h
              exact Option.noConfusion h
            · have he : directiveSplit ('%' :: r0) =
                  some ('%' :: r0.takeWhile isWordChar ++
                      '(' :: ((r0.dropWhile isWordChar).tail).takeWhile (fun x => x ≠ ')') ++
                      ')' :: ((((r0.dropWhile isWordChar).tail).dropWhile
                        (fun x => x ≠ ')')).tail.takeWhile isSpaceChar),
                    (((((r0.dropWhile isWordChar).tail).dropWhile (fun x => x ≠ ')')).tail.dropWhile
                      isSpaceChar).takeWhile (fun x => x ≠ '\n'))) := by
                simp only [directiveSplit, if_true]
                rw [if_neg hw, if_pos hpar, if_pos hcl, if_neg hws]
              rw [he] at h
              obtain ⟨rfl, rfl⟩ := Prod.mk.inj (Option.some.inj h)
              exact (recon_paren r0 hnl0 hpar hcl).symm
          · have he : directiveSplit ('%' :: r0) = none := by
              simp only [directiveSplit, if_true]
              rw [if_neg hw, if_pos hpar, if_neg hcl]
            rw [he] at h
            exact Option.noConfusion h
        · by_cases hws2 : ((r0.dropWhile isWordChar).takeWhile isSpaceChar).isEmpty
          · have he : directiveSplit ('%' :: r0) = none := by
              simp only [directiveSplit, if_true]
              rw [if_neg hw, if_neg hpar, if_pos hws2]
            rw [he] at h
            exact Option.noConfusion h
          · have he : directiveSplit ('%' :: r0) =
                some ('%' :: r0.takeWhile isWordChar ++
                    (r0.dropWhile isWordChar).takeWhile isSpaceChar,
                  (((r0.dropWhile isWordChar).dropWhile isSpaceChar).takeWhile
                    (fun x => x ≠ '\n'))) := by
              simp only [directiveSplit, if_true]
              rw [if_neg hw, if_neg hpar, if_neg hws2]
            rw [he] at h
            obtain ⟨rfl, rfl⟩ := Prod.mk.inj (Option.some.inj h)
            exact (recon_plain r0 hnl0).symm
    · have he : directiveSplit (c :: r0) = none := by
        simp only [directiveSplit]
        rw [if_neg hc]
      rw [he] at h
      exact Option.noConfusion h

/-- Claim C10 (corrected): `quote_filename` splits off any RPM directive prefix unquoted and quotes the remainder iff the remainder (not the whole filename) has a space or tab; on newline-free input the prefix and remainder reassemble to the input, and a filename with no space or tab anywhere is returned unchanged. -/
theorem claim_C10 (f : String) (hnl : '\n' ∉ f.data) :
    (directiveSplit f.data = none →
       quote_filename f = (if hasSpecialChar f.data then "\"" ++ f ++ "\"" else f)) ∧
    (∀ g1 g3, directiveSplit f.data = some (g1, g3) →
       f.data = g1 ++ g3 ∧
       quote_filename f = String.mk g1 ++
         (if hasSpecialChar g3 then "\"" ++ String.mk g3 ++ "\"" else String.mk g3)) ∧
    (hasSpecialChar f.data = false → quote_filename f = f) := by
  refine ⟨?_, ?_, ?_⟩
  · intro h
    unfold quote_filename
    rw [h]
  · intro g1 g3 h
    exact ⟨directiveSplit_eq f.data hnl g1 g3 h, by unfold quote_filename; rw [h]⟩
  · intro hsp
    cases hd : directiveSplit f.data with
    | none =>
      unfold quote_filename
      rw [hd, hsp]
      simp
    | some p =>
      obtain ⟨g1, g3⟩ := p
      have hre := directiveSplit_eq f.data hnl g1 g3 hd
      have hsp3 : hasSpecialChar g3 = false := by
        unfold hasSpecialChar at hsp ⊢
        rw [hre, List.any_append] at hsp
        exact (Bool.or_eq_false_iff.mp hsp).2
      unfold quote_filename
      rw [hd]
      show String.mk g1 ++
          (if hasSpecialChar g3 then "\"" ++ String.mk g3 ++ "\"" else String.mk g3) = f
      rw [hsp3]
      simp only [Bool.false_eq_true, if_false]
      rw [String.ext_iff]
      simp [String.data_append, ← hre]

set_option maxRecDepth 100000 in
/-- Claim C10 counterexample: `%dir foo` contains a space yet is returned unquoted (the space lies inside the directive prefix), and text after a newline in the remainder is dropped. -/
theorem claim_C10_counterexample :
    hasSpecialChar ("%dir foo" : String).data = true ∧
    quote_filename "%dir foo" = "%dir foo" ∧
    quote_filename "%dir a\nb" = "%dir a" := by
  refine ⟨by decide, by decide, by decide⟩

/-- Witness for `claim_C10` at a concrete `%dir` entry with a space in the remainder. -/
theorem claim_C10_witness :
    '\n' ∉ ("%dir a b.txt" : String).data ∧
    ((directiveSplit ("%dir a b.txt" : String).data = none →
       quote_filename "%dir a b.txt" =
         (if hasSpecialChar ("%dir a b.txt" : String).data then "\"" ++ "%dir a b.txt" ++ "\""
          else "%dir a b.txt")) ∧
     (∀ g1 g3, directiveSplit ("%dir a b.txt" : String).data = some (g1, g3) →
        ("%dir a b.txt" : String).data = g1 ++ g3 ∧
        quote_filename "%dir a b.txt" = String.mk g1 ++
          (if hasSpecialChar g3 then "\"" ++ String.mk g3 ++ "\"" else String.mk g3)) ∧
     (hasSpecialChar ("%dir a b.txt" : String).data = false →
        quote_filename "%dir a b.txt" = "%dir a b.txt")) :=
  ⟨by decide, claim_C10 "%dir a b.txt" (by decide)⟩

/-- The use-phase make line closes the `statuspgo` conditional: with
`pgo=True` and no externally-phased PGO, `write_make_line` ends in `fi`
(specfiles.py 679-680). -/
theorem write_make_line_fi (sp : Spec) (bt pat : Option String)
    (hext : sp.config.altflags_pgo_ext = false) :
    (write_make_line sp false bt (some true) pat).getLast? = some (Line.txt "fi") := by
  unfold write_make_line
  rw [if_pos (show (some true = some true ∧ ¬sp.config.altflags_pgo_ext = true) from
    ⟨rfl, by simp [hext]⟩)]
  rw [List.getLast?_concat]

/-- With the externally-phased flag also set, the use-phase make line never
closes the conditional: specfiles.py 679 emits the `fi` only when
`not altflags_pgo_ext`, so no `fi` appears anywhere in the line. -/
theorem write_make_line_no_fi (sp : Spec) (bt pat : Option String)
    (hext : sp.config.altflags_pgo_ext = true) :
    Line.txt "fi" ∉ write_make_line sp false bt (some true) pat := by
  unfold write_make_line
  rw [if_neg (show ¬(some true = some true ∧ ¬sp.config.altflags_pgo_ext = true) from
    fun hc => hc.2 hext)]
  repeat'
    first
    | exact nm_nil _
    | exact nm_usrs
    | (apply nm_mblock <;> exact ne_of_idx 0 rfl)
    | apply nm_app
    | apply nm_ite
    | apply nm_txtr
    | (apply nm_txtl
       exact ne_of_idx 0 rfl)

theorem meson_variant_order (bsp bavx2 bavx512 bmpi b32 b32only : Bool) :
    (write_meson_build_tail (mkOrderCfg bsp bavx2 bavx512 bmpi b32 b32only)).filterMap mesonTag =
      [VTag.d64] ++
      (if bavx2 then [VTag.avx2] ++ (if bavx512 then [VTag.avx512] else []) else []) ++
      (if b32 then [VTag.b32] else []) := by
  cases bsp <;> cases bavx2 <;> cases bavx512 <;> cases bmpi <;> cases b32 <;> cases b32only <;>
    decide

/-- Claim C1 (corrected): synthesis is deterministic except for the
`SOURCE_DATE_EPOCH` export, which embeds the wall-clock second
`int(time.time())`; erasing the epoch lines, two calls at any wall-clock
seconds emit identical `%install` and cmake `%build` streams. -/
theorem claim_C1 (sp : Spec) (t₁ t₂ : Nat) :
    eraseEpochs (write_make_install sp t₁) = eraseEpochs (write_make_install sp t₂) ∧
    eraseEpochs (write_cmake_pattern_build sp t₁) =
      eraseEpochs (write_cmake_pattern_build sp t₂) := by
  constructor
  · simp [write_make_install, wmiHeader, eraseEpochs, List.filter_append, keepLine, List.filter]
  · simp [write_cmake_pattern_build, write_lang_c, eraseEpochs, List.filter_append, keepLine,
      List.filter]

/-- Claim C3 (corrected): with a profiling payload configured, `altflags_pgo`
set and `fsalt1` unset, the composers emit the in-process two-phase wrapper
even when the externally-phased flags are also set - but the cmake composer
keys on `profile_payload[0]` (first payload line truthy) where the configure
composer keys on the payload list itself; the externally-phased flags are
ignored whenever `altflags_pgo` is set. -/
theorem claim_C3 (sp : Spec) (t : Nat) (pl e ep bs : Bool) :
    (headTru sp.config.profile_payload = true → sp.config.altflags_pgo = true →
     sp.config.fsalt1 = false → sp.config.o32bit_only = false →
       Line.txt "if [ ! -f statuspgo ]; then" ∈ write_cmake_pattern_build sp t) ∧
    (truL sp.config.profile_payload = true → sp.config.altflags_pgo = true →
     sp.config.fsalt1 = false →
       Line.txt "if [ ! -f statuspgo ]; then" ∈ write_configure_pattern_build sp t) ∧
    write_cmake_pattern_build (mkC3 pl e ep bs) 0 =
      write_cmake_pattern_build (mkC3 pl false false bs) 0 :=
  ⟨fun h1 h2 h3 h4 => cmake_inproc_mem sp t h1 h2 h3 h4,
   fun h1 h2 h3 => conf_inproc_mem sp t h1 h2 h3,
   cmake_ext_flags_ignored pl e ep bs⟩

/-- Witness for `claim_C3` at a configuration with a one-line workload. -/
theorem claim_C3_witness :
    Line.txt "if [ ! -f statuspgo ]; then" ∈ write_cmake_pattern_build spW3 0 ∧
    Line.txt "if [ ! -f statuspgo ]; then" ∈ write_configure_pattern_build spW3 0 ∧
    write_cmake_pattern_build (mkC3 true true true false) 0 =
      write_cmake_pattern_build (mkC3 true false false false) 0 :=
  ⟨(claim_C3 spW3 0 true true true false).1 rfl rfl rfl rfl,
   (claim_C3 spW3 0 true true true false).2.1 rfl rfl rfl,
   (claim_C3 spW3 0 true true true false).2.2⟩

/-- Claim C4 (corrected): the cmake Default64 block is wrapped as claimed in
the `statuspgo` marker conditional (phase 1 with generate flags, workload,
clean, marker write; phase 2 with use flags; closing `fi`), and the
use-phase make line closes the conditional with `fi` exactly when
`altflags_pgo_ext` is unset - in the tie-break configuration (in-process PGO
with the externally-phased flag also set) no `fi` is emitted, so the
configure composer's phase-2 conditional stays unclosed: its stream opens
two `statuspgo` conditionals but closes only one. -/
theorem claim_C4 (sp : Spec) (bt pat : Option String) (e : Bool) :
    (headTru sp.config.profile_payload = true → sp.config.altflags_pgo = true →
     sp.config.fsalt1 = false →
       cmakeDefault64 sp =
      [Line.txt "mkdir -p clr-build", Line.txt "pushd clr-build"] ++
            write_build_prepend sp ++ write_variables sp none ++ write_build_append sp ++
            [Line.txt "if [ ! -f statuspgo ]; then", Line.txt "\necho PGO Phase 1\n",
             Line.txt generateFlagsStr] ++
            (if truL sp.config.cmake_mac then usrs sp.config.cmake_mac
             else [Line.txt ("%cmake " ++ sp.config.cmake_srcdir ++ " " ++ sp.extra_cmake ++ " " ++
               sp.extra_cmake_64)]) ++
            write_make_line sp false none none none ++
            [Line.txt "\n"] ++
            write_profile_payload_content sp none ++
            (if tru sp.config.custom_clean_pgo then [Line.txt (sp.config.custom_clean_pgo ++ "\n")]
             else [Line.txt "\nfind . -type f,l -not -name '*.gcno' -not -name 'statuspgo*' -delete -print"]) ++
            [Line.txt "echo USED > statuspgo", Line.txt "fi",
             Line.txt "if [ -f statuspgo ]; then", Line.txt "echo PGO Phase 2\n",
             Line.txt useFlagsStr] ++
            (if truL sp.config.cmake_mac_pgo then usrs sp.config.cmake_mac_pgo
             else if truL sp.config.cmake_mac then usrs sp.config.cmake_mac
             else if tru sp.config.extra_cmake_pgo then
               [Line.txt ("%cmake " ++ sp.config.cmake_srcdir ++ " " ++ sp.extra_cmake_pgo)]
             else []) ++
            write_make_line sp false none none none ++
            [Line.txt "fi", Line.txt "popd"]) ∧
    (sp.config.altflags_pgo_ext = false →
       (write_make_line sp false bt (some true) pat).getLast? = some (Line.txt "fi")) ∧
    (sp.config.altflags_pgo_ext = true →
       Line.txt "fi" ∉ write_make_line sp false bt (some true) pat) ∧
    ((write_configure_pattern_build (mkC4 e) 0).filter
        (fun l => l == Line.txt "if [ ! -f statuspgo ]; then" ||
          l == Line.txt "if [ -f statuspgo ]; then")).length = 2 ∧
    ((write_configure_pattern_build (mkC4 e) 0).filter
        (fun l => l == Line.txt "fi")).length = (if e then 1 else 2) :=
  ⟨fun h1 h2 h3 => cmakeDefault64_inproc sp h1 h2 h3,
   fun hext => write_make_line_fi sp bt pat hext,
   fun hext => write_make_line_no_fi sp bt pat hext,
   by cases e <;> decide,
   by cases e <;> decide⟩

/-- Claim C4 counterexample: in the tie-break configuration (in-process
two-phase PGO with `altflags_pgo_ext` also set) the configure-pattern
`%build` stream opens two `statuspgo` conditionals but emits only one `fi`:
the phase-2 conditional opened by the PGO wrapper is never closed, so that
block is not wrapped in a well-formed shell conditional. -/
theorem claim_C4_counterexample :
    spC4ce.config.altflags_pgo_ext = true ∧
    Line.txt "if [ -f statuspgo ]; then" ∈ write_configure_pattern_build spC4ce 0 ∧
    ((write_configure_pattern_build spC4ce 0).filter
        (fun l => l == Line.txt "if [ ! -f statuspgo ]; then" ||
          l == Line.txt "if [ -f statuspgo ]; then")).length = 2 ∧
    ((write_configure_pattern_build spC4ce 0).filter
        (fun l => l == Line.txt "fi")).length = 1 :=
  ⟨rfl, by decide, by decide, by decide⟩

/-- Witness for `claim_C4` at a configuration with a one-line workload. -/
theorem claim_C4_witness :
    cmakeDefault64 spW3 =
      [Line.txt "mkdir -p clr-build", Line.txt "pushd clr-build"] ++
            write_build_prepend spW3 ++ write_variables spW3 none ++ write_build_append spW3 ++
            [Line.txt "if [ ! -f statuspgo ]; then", Line.txt "\necho PGO Phase 1\n",
             Line.txt generateFlagsStr] ++
            (if truL spW3.config.cmake_mac then usrs spW3.config.cmake_mac
             else [Line.txt ("%cmake " ++ spW3.config.cmake_srcdir ++ " " ++ spW3.extra_cmake ++ " " ++
               spW3.extra_cmake_64)]) ++
            write_make_line spW3 false none none none ++
            [Line.txt "\n"] ++
            write_profile_payload_content spW3 none ++
            (if tru spW3.config.custom_clean_pgo then [Line.txt (spW3.config.custom_clean_pgo ++ "\n")]
             else [Line.txt "\nfind . -type f,l -not -name '*.gcno' -not -name 'statuspgo*' -delete -print"]) ++
            [Line.txt "echo USED > statuspgo", Line.txt "fi",
             Line.txt "if [ -f statuspgo ]; then", Line.txt "echo PGO Phase 2\n",
             Line.txt useFlagsStr] ++
            (if truL spW3.config.cmake_mac_pgo then usrs spW3.config.cmake_mac_pgo
             else if truL spW3.config.cmake_mac then usrs spW3.config.cmake_mac
             else if tru spW3.config.extra_cmake_pgo then
               [Line.txt ("%cmake " ++ spW3.config.cmake_srcdir ++ " " ++ spW3.extra_cmake_pgo)]
             else []) ++
            write_make_line spW3 false none none none ++
            [Line.txt "fi", Line.txt "popd"] ∧
    (write_make_line spW3 false none (some true) none).getLast? = some (Line.txt "fi") ∧
    Line.txt "fi" ∉ write_make_line spC4ce false none (some true) none :=
  ⟨(claim_C4 spW3 none none true).1 rfl rfl rfl,
   (claim_C4 spW3 none none true).2.1 rfl,
   (claim_C4 spC4ce none none true).2.2.1 rfl⟩

/-- Claim C5 (corrected): the cmake composer emits variant `%build` blocks
Default64 first, then special / avx2 / avx512 / openmpi as enabled, with the
32-bit block last (not 32-bit first and Default64 last as claimed, and with
no Special2 block); the embedded meson tail orders Default64, avx2, avx512,
32-bit. -/
theorem claim_C5 (bsp bavx2 bavx512 bmpi b32 b32only : Bool) :
    (write_cmake_pattern_build (mkOrderCfg bsp bavx2 bavx512 bmpi b32 b32only) 0).filterMap
        cmakeTag =
      (if b32only then [] else
        [VTag.d64] ++ (if bsp then [VTag.spc] else []) ++ (if bavx2 then [VTag.avx2] else []) ++
        (if bavx512 then [VTag.avx512] else []) ++ (if bmpi then [VTag.mpi] else [])) ++
      (if b32 then [VTag.b32] else []) ∧
    (write_meson_build_tail (mkOrderCfg bsp bavx2 bavx512 bmpi b32 b32only)).filterMap mesonTag =
      [VTag.d64] ++
      (if bavx2 then [VTag.avx2] ++ (if bavx512 then [VTag.avx512] else []) else []) ++
      (if b32 then [VTag.b32] else []) :=
  ⟨cmake_variant_order bsp bavx2 bavx512 bmpi b32 b32only,
   meson_variant_order bsp bavx2 bavx512 bmpi b32 b32only⟩
